import Mathlib

/-!
Verification of the round/phase orchestration engine of `party_server.py`.

The Python module keeps one mutable session aggregate (the `STATE` dict)
behind one lock.  We embed that aggregate as the structure `State` below and
each locked operation of the engine (`tick_timer_locked`,
`reset_timer_locked`, `compute_results_locked`, `start_new_round_locked`,
the `submit` request handler, and the host actions the claims touch) as a
pure function `State → ...`.  Python dicts preserve insertion order, so every
dict of the aggregate is embedded as an insertion-ordered association list;
`dictSet` mirrors `d[k] = v` (update in place, else append).  Python
truthiness tests on optional strings (`if not pid`, `if err`, ...) are
embedded through `optStrTruthy`.  Wall-clock timestamps (`time.time()`) are
embedded as integers (time at integer resolution — the code only compares,
subtracts and stores them) supplied by the caller, and the randomness of
`random.shuffle` / `random.choice` / `random.randint` is supplied as
explicit oracle arguments, so every function here is deterministic and
executable.
-/

namespace PartyHub

/-- Python truthiness of an optional string: `None` and `""` are falsy. -/
def optStrTruthy : Option String → Bool
  | none => false
  | some s => s ≠ ""

/-- Python `a or b` on optional strings (used for `answer_pid or buzz_winner_pid`). -/
def pyOrStr (a b : Option String) : Option String :=
  if optStrTruthy a then a else b

/-- `d[k] = v` on an insertion-ordered dict: replace an existing binding in
place, otherwise append the new binding at the end. -/
def dictSet {α : Type} (m : List (String × α)) (k : String) (v : α) :
    List (String × α) :=
  if (m.lookup k).isSome then
    m.map (fun kv => if kv.1 = k then (k, v) else kv)
  else
    m ++ [(k, v)]

/-- A value stored in the generic `submissions` dict: a participant-id /
free-text answer (Python `str`) or a choice index / numeric guess
(Python `int`). -/
inductive SubVal : Type
  | str (s : String)
  | int (n : ℤ)
  deriving Repr, DecidableEq

/-- Python `str(value)` for a stored submission value. -/
def SubVal.toStr : SubVal → String
  | .str s => s
  | .int n => toString n

-- Constants of the source module.

def TEXT_MAX_LEN : ℕ := 120
def QUICKDRAW_MAX_LEN : ℕ := 40
def VOTEBATTLE_MAX_LEN : ℕ := 80
def TIMER_DEFAULT_SECONDS : ℤ := 45
def VOTE_TIMER_DEFAULT_SECONDS : ℤ := 30
def MAFIA_MIN_PLAYERS : ℕ := 3

/-- Python `str.strip()` on character lists: drop whitespace from both
ends. -/
def strTrim (s : String) : String :=
  String.mk
    (((s.data.dropWhile Char.isWhitespace).reverse.dropWhile
      Char.isWhitespace).reverse)

/-- Python `str.lower()` over the ASCII range. -/
def strToLower (s : String) : String :=
  String.mk (s.data.map Char.toLower)

/-- Python `str.startswith`. -/
def strStartsWith (s p : String) : Bool :=
  p.data.isPrefixOf s.data

/-- Accumulator pass behind `pySplitWS`: walk the characters, flushing the
reversed current word at each whitespace run. -/
def splitWSChars : List Char → List Char → List String
  | [], acc => if acc.isEmpty then [] else [String.mk acc.reverse]
  | c :: rest, acc =>
      if c.isWhitespace then
        if acc.isEmpty then splitWSChars rest []
        else String.mk acc.reverse :: splitWSChars rest []
      else splitWSChars rest (c :: acc)

/-- Python `text.split()` (split on whitespace runs, discarding empties). -/
def pySplitWS (text : String) : List String :=
  splitWSChars text.data []

/-- Embedding of `clean_text_answer` (line 2019): collapse whitespace, cut to
`limit` characters, strip. -/
def clean_text_answer (text : String) (limit : ℕ) : String :=
  strTrim ((" ".intercalate (pySplitWS text)).take limit)

/-- Embedding of `normalize_text` (line 1986): lowercase, collapse
whitespace, strip one leading article among "a ", "an ", "the ". -/
def normalize_text (text : String) : String :=
  let cleaned := " ".intercalate (pySplitWS (strToLower (strTrim text)))
  if strStartsWith cleaned "a " then strTrim (cleaned.drop 2)
  else if strStartsWith cleaned "an " then strTrim (cleaned.drop 3)
  else if strStartsWith cleaned "the " then strTrim (cleaned.drop 4)
  else cleaned

/-- First-occurrence deduplication: the key sequence a Python dict built by
inserting the elements of `l` in order ends up with (each element at the
position of its first occurrence, later duplicates dropped). -/
def dedupKeys {α : Type} [DecidableEq α] : List α → List α
  | [] => []
  | a :: t => a :: (dedupKeys t).filter (fun x => x ≠ a)

/-- Embedding of `build_tally` (line 2126): `tally = {pid: 0 for pid in
valid_pids}` (a dict comprehension keeps the first occurrence of a
duplicated key, hence `dedupKeys`), then count the submission values that
are keys of the tally.  Only string submission values can match. -/
def build_tally (subs : List (String × SubVal)) (valid : List String) :
    List (String × ℕ) :=
  (dedupKeys valid).map
    (fun pid => (pid, (subs.filter (fun kv => kv.2 = SubVal.str pid)).length))

/-- Embedding of `pick_winners_from_tally` (line 2134): all keys at the
maximum count provided that maximum is positive. -/
def pick_winners_from_tally (tally : List (String × ℕ)) :
    List String × ℕ :=
  if tally = [] then ([], 0)
  else
    let max_votes := (tally.map (·.2)).foldl max 0
    ((tally.filter (fun kv => kv.2 = max_votes ∧ 0 < kv.2)).map (·.1), max_votes)

/-- Embedding of `unique_answer_pids` (line 2112): group submitters by the
normalized text of their answer (first-occurrence order, empty normalized
text skipped) and keep the groups of size one. -/
def unique_answer_pids (subs : List (String × SubVal)) : List String :=
  let normalized :=
    (subs.map (fun kv => (kv.1, normalize_text kv.2.toStr))).filter
      (fun kv => kv.2 ≠ "")
  let keys := dedupKeys (normalized.map (·.2))
  keys.filterMap (fun nval =>
    match normalized.filter (fun kv => kv.2 = nval) with
    | [(pid, _)] => some pid
    | _ => none)

/-- Embedding of `select_buzz_winner` (line 3006): keep the earliest
recorded timestamp, strict less-than, so an equal-timestamp candidate does
not displace the recorded entry. -/
def select_buzz_winner (existing_pid : Option String)
    (existing_ts : Option ℤ) (candidate_pid : String) (candidate_ts : ℤ) :
    String × ℤ :=
  match existing_pid, existing_ts with
  | some pid, some ts =>
      if candidate_ts < ts then (candidate_pid, candidate_ts) else (pid, ts)
  | _, _ => (candidate_pid, candidate_ts)

/-- Embedding of `pick_first_correct_steal` (line 3019): the first steal
attempt (dict insertion order) whose choice equals the correct index. -/
def pick_first_correct_steal (steal_attempts : List (String × ℤ))
    (correct_index : Option ℤ) : Option String :=
  match correct_index with
  | none => none
  | some ci => (steal_attempts.find? (fun kv => kv.2 = ci)).map (·.1)

/-- Result record of `compute_trivia_buzzer_outcome`. -/
structure BuzzerOutcome where
  buzz_correct : Bool
  steal_pid : Option String
  scoring_pid : Option String
  points : ℤ
  deriving Repr, DecidableEq

/-- Embedding of `compute_trivia_buzzer_outcome` (line 3028).  The guards
`if not buzz_winner_pid`, `if steal_pid` and `answer_pid or buzz_winner_pid`
are Python truthiness tests on strings, hence `optStrTruthy` / `pyOrStr`. -/
def compute_trivia_buzzer_outcome (correct_index : Option ℤ)
    (buzz_winner_pid : Option String) (answer_pid : Option String)
    (answer_choice : Option ℤ) (steal_attempts : List (String × ℤ)) :
    BuzzerOutcome :=
  if correct_index = none ∨ ¬ optStrTruthy buzz_winner_pid then
    ⟨false, none, none, 0⟩
  else
    match answer_choice with
    | none =>
        let sp := pick_first_correct_steal steal_attempts correct_index
        if optStrTruthy sp then ⟨false, sp, sp, 1⟩ else ⟨false, none, none, 0⟩
    | some c =>
        if some c = correct_index then
          ⟨true, none, pyOrStr answer_pid buzz_winner_pid, 2⟩
        else
          let sp := pick_first_correct_steal steal_attempts correct_index
          if optStrTruthy sp then ⟨false, sp, sp, 1⟩ else ⟨false, none, none, 0⟩

/-- Embedding of `resolve_mafia_vote` (line 3272).  `random.choice` over the
tied winners is supplied as the oracle index `k`; any index is a possible
draw, and `k % winners.length` is how we read the oracle. -/
def resolve_mafia_vote (k : ℕ) (votes : List (String × String))
    (alive : List String) : Option String :=
  let tally := build_tally (votes.map (fun kv => (kv.1, SubVal.str kv.2))) alive
  let winners := (pick_winners_from_tally tally).1
  if winners = [] then none else winners.get? (k % winners.length)

/-- Embedding of `check_mafia_win` (line 3281) on the fields it reads. -/
def check_mafia_win (alive : List String) (roles : List (String × String)) :
    Option String :=
  if alive = [] then none
  else
    let wolves := alive.filter (fun pid => roles.lookup pid = some "werewolf")
    let villagers := alive.filter (fun pid => roles.lookup pid ≠ some "werewolf")
    if wolves = [] then some "villagers"
    else if villagers.length ≤ wolves.length then some "werewolves"
    else none

/-- Embedding of `check_text_allowed` (line 2024).  The banned-word predicate
and the OpenAI moderation call are external collaborators (spec treats
content policy as an external predicate), so both are oracle arguments:
`banned text filter_mode` stands for `contains_banned_word(text, mode)` and
`moderate text` stands for `openai_moderate_text(text)` returning
`(allowed?, error?)`.  On an unavailable moderation result the source writes
`state["host_message"]`, which is why this embedding returns a state. -/
structure TextOracles where
  banned : String → String → Bool
  moderate : String → Option Bool × Option String

/-- One entry of the `votebattle_order` list: `{"id": .., "pid": .., "text": ..}`. -/
structure VBEntry where
  id : ℤ
  pid : String
  text : String
  deriving Repr, DecidableEq

/-- One row of the vote-battle result `entries` list. -/
structure VBResultEntry where
  id : ℤ
  pid : String
  text : String
  votes : ℕ
  deriving Repr, DecidableEq

/-- One row of the quickdraw result `answers` list. -/
structure QDAnswer where
  pid : String
  name : String
  answer : String
  normalized : String
  deriving Repr, DecidableEq

/-- One row of the quickdraw result `groups` list. -/
structure QDGroup where
  answer : String
  pids : List String
  names : List String
  count : ℕ
  unique : Bool
  deriving Repr, DecidableEq

/-- One row of the wavelength result `guesses` list. -/
structure WLGuess where
  pid : String
  name : String
  guess : ℤ
  distance : Option ℤ
  deriving Repr, DecidableEq

/-- The mode-specific keys `result.update(...)` adds in
`compute_results_locked` (line 3481), one constructor per branch;
`plain` is a mode with no branch (common keys only). -/
inductive ResultData : Type
  | mlt (tally : List (String × ℕ)) (winners : List String) (max_votes : ℕ)
  | wyr (tally0 tally1 : ℕ) (majority : Option ℤ) (points_majority : Bool)
  | trivia (tally : List (ℤ × ℕ)) (correct_index : Option ℤ)
      (winners : List String)
  | buzzer (correct_index : Option ℤ) (buzz_winner_pid : Option String)
      (buzz_winner_team_id : Option ℤ) (buzz_ts : Option ℤ)
      (answer_pid : Option String) (answer_team_id : Option ℤ)
      (answer_choice : Option ℤ) (steal_attempts : List (String × ℤ))
      (buzz_correct : Bool) (steal_pid : Option String)
      (scoring_pids : List String) (scoring_team_id : Option ℤ) (points : ℤ)
  | hotseat (answers : List (String × String × String))
  | quickdraw (answers : List QDAnswer) (groups : List QDGroup)
      (unique_pids : List String) (scoring : String)
  | wavelength (target : Option ℤ) (guesses : List WLGuess)
      (winners : List String) (average_guess : Option ℚ)
  | votebattle (entries : List VBResultEntry) (winners : List String)
  | spyfall (tally : List (String × ℕ)) (winners : List String)
      (max_votes : ℕ) (spy_pid : Option String) (spy_caught : Bool)
      (location : String)
  | mafia (winner : Option String) (roles : List (String × String))
      (alive : List String) (last_eliminated : Option String)
  | plain
  deriving Repr, DecidableEq

/-- The result dict built by `compute_results_locked`: the common keys plus
the mode-specific ones. -/
structure RoundResult where
  mode : String
  round_id : ℤ
  prompt : String
  options : List String
  data : ResultData
  deriving Repr, DecidableEq

/-- The mode-specific keys of a history entry
(`build_history_entry`, line 3397). -/
inductive HistData : Type
  | mlt (winners : List String) (max_votes : ℕ)
  | wyr (tally0 tally1 : ℕ) (majority : Option ℤ)
  | trivia (winners : List String) (correct_index : Option ℤ)
  | buzzer (buzz_winner : Option String) (answer : Option String)
      (correct_index : Option ℤ) (points : ℤ) (scoring : List String)
  | hotseat (answers : List (String × String × String))
  | quickdraw (unique_winners : List String) (groups : List QDGroup)
  | wavelength (winners : List String) (target : Option ℤ)
  | votebattle (winners : List String) (entries : List VBResultEntry)
  | spyfall (spy : String) (spy_caught : Bool) (winners : List String)
      (tally : List (String × ℕ))
  | mafia (winner : Option String) (roles : List (String × String))
      (alive : List String)
  | plain
  deriving Repr, DecidableEq

/-- One history entry.  The source stamps entries with
`datetime.datetime.utcnow().isoformat()`; we record that wall-clock instant
as the rational `ts` supplied by the caller of the locked operation. -/
structure HistEntry where
  ts : ℤ
  round_id : ℤ
  mode : String
  prompt : String
  data : HistData
  deriving Repr, DecidableEq

/-- The session aggregate: the fields of the module-level `STATE` dict
(line 455) that the orchestration engine reads or writes.  Keys belonging to
modes this version of `submit` / `tick_timer_locked` /
`compute_results_locked` never dispatches on (jeopardy, relay, draft, wager,
estimate), the prompt-catalog bags, and transport-side keys (lobby code and
lock) are carried by no claim and are left out.  `players` maps pid to
display name. -/
structure State where
  phase : String
  mode : String
  round_id : ℤ
  players : List (String × String)
  teams_enabled : Bool
  teams : List (String × ℤ)
  scores : List (String × ℤ)
  prompt : String
  options : List String
  correct_index : Option ℤ
  trivia_buzzer_phase : Option String
  trivia_buzzer_question : String
  trivia_buzzer_options : List String
  trivia_buzzer_correct_index : Option ℤ
  buzz_winner_pid : Option String
  buzz_winner_team_id : Option ℤ
  buzz_ts : Option ℤ
  answer_pid : Option String
  answer_team_id : Option ℤ
  answer_choice : Option ℤ
  steal_attempts : List (String × ℤ)
  trivia_buzzer_result : Option RoundResult
  trivia_buzzer_steal_enabled : Bool
  wavelength_target : Option ℤ
  submissions : List (String × SubVal)
  submissions_locked : Bool
  votebattle_phase : Option String
  votebattle_entries : List (String × String)
  votebattle_votes : List (String × ℤ)
  votebattle_order : List VBEntry
  votebattle_counter : ℤ
  spyfall_phase : Option String
  spyfall_location : String
  spyfall_spy_pid : Option String
  spyfall_roles : List (String × String)
  spyfall_auto_start_vote_on_timer : Bool
  spyfall_allow_self_vote : Bool
  mafia_phase : Option String
  mafia_roles : List (String × String)
  mafia_alive : List String
  mafia_wolf_votes : List (String × String)
  mafia_day_votes : List (String × String)
  mafia_seer_results : List (String × String × Bool)
  mafia_last_eliminated : Option String
  mafia_seer_enabled : Bool
  mafia_auto_wolf_count : Bool
  mafia_wolf_count : ℤ
  mafia_reveal_roles_on_end : Bool
  last_result : Option RoundResult
  history : List HistEntry
  host_message : String
  reclaim_requests : List String
  reclaim_notices : List (String × String)
  filter_mode : String
  openai_moderation_enabled : Bool
  timer_enabled : Bool
  timer_seconds : ℤ
  vote_timer_seconds : ℤ
  auto_advance : Bool
  late_submit_policy : String
  round_start_ts : Option ℤ
  timer_start_ts : Option ℤ
  timer_duration : Option ℤ
  timer_expired : Bool
  wyr_points_majority : Bool
  quickdraw_scoring : String
  deriving Repr, DecidableEq

/-- Embedding of `check_text_allowed` (line 2024): the banned-word filter,
then (when enabled) OpenAI moderation, which on an unavailable verdict
writes `state["host_message"]` before rejecting. -/
def check_text_allowed (oracles : TextOracles) (text : String) (s : State) :
    Option String × State :=
  if oracles.banned text s.filter_mode then (some "Keep it PG-13.", s)
  else if s.openai_moderation_enabled then
    match oracles.moderate text with
    | (none, e) =>
        (some "Moderation unavailable.",
         { s with host_message := e.getD "OpenAI moderation failed." })
    | (some ok, _) => if ok then (none, s) else (some "Keep it PG-13.", s)
  else (none, s)

/-- `players.get(pid, {}).get("name", "Unknown")`. -/
def nameFor (s : State) (pid : String) : String :=
  (s.players.lookup pid).getD "Unknown"

/-- `STATE["scores"][pid] = STATE["scores"].get(pid, 0) + delta`, the inline
score bump used throughout `compute_results_locked`. -/
def scoreAdd (scores : List (String × ℤ)) (pid : String) (delta : ℤ) :
    List (String × ℤ) :=
  dictSet scores pid ((scores.lookup pid).getD 0 + delta)

/-- Python `sorted(names, key=lambda n: n.lower())` (stable). -/
def sortStrLower (names : List String) : List String :=
  names.mergeSort (fun a b => decide (strToLower a ≤ strToLower b))

/-- Embedding of `build_history_entry` (line 3397) for the result records
this development constructs; the source branches on `result["mode"]`, which
for a record built by `compute_results_locked` is the branch the `data`
constructor records.  Display names are resolved through the players dict;
the wall-clock stamp is the caller-supplied `now`. -/
def build_history_entry (now : ℤ) (s : State) (result : RoundResult) :
    HistEntry :=
  let data : HistData :=
    match result.data with
    | .mlt _tally winners maxv => .mlt (winners.map (nameFor s)) maxv
    | .wyr t0 t1 maj _pm => .wyr t0 t1 maj
    | .trivia _tally ci winners => .trivia (winners.map (nameFor s)) ci
    | .buzzer ci bp _btid _bts ap _atid _ac _steals _bc _sp scoring _stid
        points =>
        .buzzer
          (if optStrTruthy bp then some (nameFor s (bp.getD "")) else none)
          (if optStrTruthy ap then some (nameFor s (ap.getD "")) else none)
          ci points (scoring.map (nameFor s))
    | .hotseat answers => .hotseat answers
    | .quickdraw _answers groups unique _scoring =>
        .quickdraw (unique.map (nameFor s)) groups
    | .wavelength target _guesses winners _avg =>
        .wavelength (winners.map (nameFor s)) target
    | .votebattle entries winners =>
        .votebattle (winners.map (nameFor s)) entries
    | .spyfall tally winners _mv sp caught _loc =>
        .spyfall (if optStrTruthy sp then nameFor s (sp.getD "") else "Unknown")
          caught (winners.map (nameFor s)) tally
    | .mafia winner roles alive _le =>
        .mafia winner roles (alive.map (nameFor s))
    | .plain => .plain
  ⟨now, result.round_id, result.mode, result.prompt, data⟩

/-- Embedding of `append_history_locked` (line 3451): replace the last entry
when it has the same `round_id` and `mode`, else append. -/
def append_history_locked (now : ℤ) (s : State) (result : RoundResult) :
    State :=
  let entry := build_history_entry now s result
  match s.history.getLast? with
  | some lastE =>
      if lastE.round_id = entry.round_id ∧ lastE.mode = entry.mode then
        { s with history := s.history.dropLast ++ [entry] }
      else { s with history := s.history ++ [entry] }
  | none => { s with history := s.history ++ [entry] }

/-- The `mlt` tally of `compute_results_locked` (line 3493): zero per player
key, then count submissions targeting that key. -/
def mltTally (s : State) : List (String × ℕ) :=
  (dedupKeys (s.players.map (·.1))).map
    (fun pid => (pid, (s.submissions.filter (fun kv => kv.2 = SubVal.str pid)).length))

/-- Winners of a count list at the positive maximum, as the `mlt` branch
computes them. -/
def mltWinners (tally : List (String × ℕ)) : List String × ℕ :=
  let max_votes := (tally.map (·.2)).foldl max 0
  ((tally.filter (fun kv => kv.2 = max_votes ∧ 0 < kv.2)).map (·.1), max_votes)

/-- The scoring expansion of the trivia-buzzer branch of
`compute_results_locked` (lines 3546-3557): the outcome's scoring pid, or in
the team variant every member of that pid's team; also returns the
`scoring_team_id`. -/
def buzzerScoringPids (mode : String) (teams : List (String × ℤ))
    (scoring_pid : Option String) : List String × Option ℤ :=
  match scoring_pid with
  | some sp =>
      if sp ≠ "" then
        if mode = "team_trivia" then
          match teams.lookup sp with
          | some tid => ((teams.filter (fun kv => kv.2 = tid)).map (·.1), some tid)
          | none => ([], none)
        else ([sp], none)
      else ([], none)
  | none => ([], none)

/-- The per-mode heart of `compute_results_locked` (line 3481): the
mode-specific keys the branch adds to the result dict, paired with the
scores after the branch's score deltas. -/
def computeResultPair (s : State) : ResultData × List (String × ℤ) :=
    if s.mode = "mlt" then
      let tally := mltTally s
      let w := mltWinners tally
      (.mlt tally w.1 w.2, w.1.foldl (fun sc pid => scoreAdd sc pid 1) s.scores)
    else if s.mode = "wyr" then
      let t0 := (s.submissions.filter (fun kv => kv.2 = SubVal.int 0)).length
      let t1 := (s.submissions.filter (fun kv => kv.2 = SubVal.int 1)).length
      let majority : Option ℤ :=
        if t1 < t0 then some 0 else if t0 < t1 then some 1 else none
      let scores :=
        if s.wyr_points_majority ∧ majority.isSome then
          s.submissions.foldl
            (fun sc kv =>
              if (majority.map SubVal.int) = some kv.2 then scoreAdd sc kv.1 1
              else sc)
            s.scores
        else s.scores
      (.wyr t0 t1 majority s.wyr_points_majority, scores)
    else if s.mode = "trivia" then
      let tally := (List.range s.options.length).map
        (fun i => ((i : ℤ), (s.submissions.filter (fun kv => kv.2 = SubVal.int i)).length))
      let winners := (s.submissions.filter
        (fun kv => (s.correct_index.map SubVal.int) = some kv.2)).map (·.1)
      (.trivia tally s.correct_index winners,
       winners.foldl (fun sc pid => scoreAdd sc pid 1) s.scores)
    else if s.mode = "trivia_buzzer" ∨ s.mode = "team_trivia" then
      let correct_index := s.trivia_buzzer_correct_index
      let outcome := compute_trivia_buzzer_outcome correct_index
        s.buzz_winner_pid s.answer_pid s.answer_choice s.steal_attempts
      let sp := buzzerScoringPids s.mode s.teams outcome.scoring_pid
      (.buzzer correct_index s.buzz_winner_pid s.buzz_winner_team_id
        s.buzz_ts s.answer_pid s.answer_team_id s.answer_choice
        s.steal_attempts outcome.buzz_correct outcome.steal_pid sp.1 sp.2
        outcome.points,
       sp.1.foldl (fun sc pid => scoreAdd sc pid outcome.points) s.scores)
    else if s.mode = "hotseat" then
      (.hotseat (s.submissions.map (fun kv => (kv.1, nameFor s kv.1, kv.2.toStr))),
       s.scores)
    else if s.mode = "quickdraw" then
      let answers : List QDAnswer := s.submissions.map (fun kv =>
        let raw := strTrim kv.2.toStr
        ⟨kv.1, nameFor s kv.1, raw, normalize_text raw⟩)
      let unique_pids := unique_answer_pids s.submissions
      let scores :=
        if s.quickdraw_scoring = "unique" then
          unique_pids.foldl (fun sc pid => scoreAdd sc pid 1) s.scores
        else s.scores
      let keys := dedupKeys (answers.map (·.normalized))
      let groups0 : List QDGroup := keys.filterMap (fun nv =>
        if nv = "" then none
        else
          let rows := answers.filter (fun row => row.normalized = nv)
          some ⟨((answers.find? (fun row => row.normalized = nv)).map (·.answer)).getD nv,
                rows.map (·.pid), sortStrLower (rows.map (·.name)),
                rows.length, rows.length = 1⟩)
      let groups := groups0.mergeSort (fun a b =>
        decide (b.count < a.count ∨
          (b.count = a.count ∧ strToLower a.answer ≤ strToLower b.answer)))
      (.quickdraw answers groups unique_pids s.quickdraw_scoring, scores)
    else if s.mode = "wavelength" then
      let target := s.wavelength_target
      -- `int(guess)` succeeds on the int values the admission path stores;
      -- non-int stored values (unreachable for this mode) are skipped like
      -- the `except` branch.
      let guesses0 : List WLGuess := s.submissions.filterMap (fun kv =>
        match kv.2 with
        | SubVal.int g => some ⟨kv.1, nameFor s kv.1, g, target.map (fun t => |g - t|)⟩
        | SubVal.str _ => none)
      let guesses := guesses0.mergeSort (fun a b =>
        decide (a.distance.getD 9999 < b.distance.getD 9999 ∨
          (a.distance.getD 9999 = b.distance.getD 9999 ∧
            strToLower a.name ≤ strToLower b.name)))
      let winner_pids : List String :=
        if target.isSome ∧ guesses ≠ [] then
          match guesses.filterMap (·.distance) with
          | [] => []
          | d :: rest =>
              let closest := rest.foldl min d
              (guesses.filter (fun row => row.distance = some closest ∧
                (s.players.lookup row.pid).isSome)).map (·.pid)
        else []
      let average_guess : Option ℚ :=
        if guesses ≠ [] then
          some ((guesses.map (fun r => (r.guess : ℚ))).sum / guesses.length)
        else none
      (.wavelength target guesses winner_pids average_guess,
       winner_pids.foldl (fun sc pid => scoreAdd sc pid 1) s.scores)
    else if s.mode = "votebattle" then
      let votes := s.votebattle_votes
      let order := s.votebattle_order
      let ids := dedupKeys (order.map (·.id))
      let counts : List (ℤ × ℕ) := ids.map
        (fun i => (i, (votes.filter (fun kv => kv.2 = i)).length))
      let winners : List String :=
        if counts ≠ [] then
          let max_votes := (counts.map (·.2)).foldl max 0
          (order.filter (fun e => (counts.lookup e.id).getD 0 = max_votes ∧
            0 < max_votes ∧ (s.players.lookup e.pid).isSome)).map (·.pid)
        else []
      -- `for pid in set(winners)`: the set is modelled in first-occurrence
      -- order; the resulting score values do not depend on the order.
      let scores := (dedupKeys winners).foldl
        (fun sc pid => scoreAdd sc pid 1) s.scores
      let entries := order.map
        (fun e => VBResultEntry.mk e.id e.pid e.text ((counts.lookup e.id).getD 0))
      (.votebattle entries winners, scores)
    else if s.mode = "spyfall" then
      let spy_pid := s.spyfall_spy_pid
      let tally := build_tally s.submissions (s.players.map (·.1))
      let pw := pick_winners_from_tally tally
      let spy_caught :=
        (match spy_pid with
         | some sp => decide (sp ∈ pw.1)
         | none => false) && decide (0 < pw.2)
      let scores :=
        if optStrTruthy spy_pid then
          match spy_pid with
          | some sp =>
              if spy_caught then
                (s.players.map (·.1)).foldl
                  (fun sc pid => if pid ≠ sp then scoreAdd sc pid 1 else sc)
                  s.scores
              else scoreAdd s.scores sp 2
          | none => s.scores
        else s.scores
      (.spyfall tally pw.1 pw.2 spy_pid spy_caught s.spyfall_location, scores)
    else if s.mode = "mafia" then
      (.mafia (check_mafia_win s.mafia_alive s.mafia_roles) s.mafia_roles
        s.mafia_alive s.mafia_last_eliminated, s.scores)
    else (.plain, s.scores)

/-- Embedding of `compute_results_locked` (line 3481): build the result
record for the current mode, apply the score deltas, store the record in
`last_result` (and `trivia_buzzer_result` for the buzzer modes) and append
it to the history.  The only state fields any branch writes are `scores`,
`trivia_buzzer_result`, `last_result` and `history`. -/
def compute_results_locked (now : ℤ) (s : State) : State :=
  let pair := computeResultPair s
  let result : RoundResult := ⟨s.mode, s.round_id, s.prompt, s.options, pair.1⟩
  let s1 := { s with scores := pair.2 }
  let s2 :=
    if s.mode = "trivia_buzzer" ∨ s.mode = "team_trivia" then
      { s1 with trivia_buzzer_result := some result }
    else s1
  append_history_locked now { s2 with last_result := some result } result

/-- Embedding of `reset_timer_locked` (line 2592).  `seconds or
state.get("timer_seconds", ...)` is a Python truthiness fallback (`None` and
`0` both fall back). -/
def reset_timer_locked (now : ℤ) (seconds : Option ℤ) (s : State) : State :=
  if ¬ s.timer_enabled then
    { s with timer_start_ts := none, timer_duration := none,
             timer_expired := false }
  else
    let duration :=
      match seconds with
      | some v => if v ≠ 0 then v else s.timer_seconds
      | none => s.timer_seconds
    { s with timer_start_ts := some now,
             timer_duration := some (max 1 duration),
             timer_expired := false }

/-- Embedding of `stop_timer_locked` (line 2604). -/
def stop_timer_locked (s : State) : State :=
  { s with timer_start_ts := none, timer_duration := none,
           timer_expired := false }

/-- Embedding of `get_timer_remaining` (line 2610).  `if not start or not
duration` is truthiness (a zero start or duration also yields `None`).
Wall-clock instants are modelled at integer resolution, at which
`max(0, int(duration - (now - start)))` is exactly
`max 0 (duration - (now - start))` (Python `int` truncation only matters
for fractional values, and `max(0, int(x)) = max(0, floor(x))` besides). -/
def get_timer_remaining (now : ℤ) (s : State) : Option ℤ :=
  if ¬ s.timer_enabled then none
  else
    match s.timer_start_ts, s.timer_duration with
    | some t, some d =>
        if t = 0 ∨ d = 0 then none
        else some (max 0 (d - (now - t)))
    | _, _ => none

/-- The auto-advance dispatch of `tick_timer_locked` (lines 2632-2694),
applied to the state `s1` that already has the expired flag set and the
late-submission policy applied: perform at most the one phase-appropriate
transition; in mafia mode never transition. -/
def tick_auto_advance (now : ℤ) (s1 : State) : Option ℤ × State :=
  if ¬ s1.auto_advance then (some 0, s1)
      else if s1.phase ≠ "in_round" then (some 0, s1)
      else if s1.mode = "votebattle" then
        if s1.votebattle_phase = some "submit" then
          if s1.votebattle_entries ≠ [] then
            let s2 := reset_timer_locked now (some s1.vote_timer_seconds)
              { s1 with votebattle_phase := some "vote",
                        submissions_locked := false }
            (some 0, { s2 with host_message := "Timer: Vote Battle voting started." })
          else (some 0, s1)
        else if s1.votebattle_phase = some "vote" then
          let s2 := compute_results_locked now s1
          (some 0, { s2 with phase := "revealed",
                             host_message := "Timer: Results revealed." })
        else (some 0, s1)
      else if s1.mode = "spyfall" then
        if s1.spyfall_phase = some "question" then
          if ¬ s1.spyfall_auto_start_vote_on_timer then (some 0, s1)
          else if s1.players ≠ [] then
            let s2 := reset_timer_locked now (some s1.vote_timer_seconds)
              { s1 with spyfall_phase := some "vote", submissions := [],
                        submissions_locked := false }
            (some 0, { s2 with host_message := "Timer: Spyfall voting started." })
          else (some 0, s1)
        else if s1.spyfall_phase = some "vote" then
          let s2 := compute_results_locked now s1
          (some 0, { s2 with phase := "revealed",
                             host_message := "Timer: Results revealed." })
        else (some 0, s1)
      else if s1.mode = "trivia_buzzer" ∨ s1.mode = "team_trivia" then
        if s1.trivia_buzzer_phase = some "buzz" then
          if optStrTruthy s1.buzz_winner_pid then
            let s2 := reset_timer_locked now (some s1.vote_timer_seconds)
              { s1 with trivia_buzzer_phase := some "answer",
                        submissions_locked := false }
            (some 0, { s2 with host_message := "Timer: Answer phase started." })
          else
            let s2 := compute_results_locked now s1
            (some 0, { s2 with phase := "revealed",
                               host_message := "Timer: No buzz." })
        else if s1.trivia_buzzer_phase = some "answer" ∨
            s1.trivia_buzzer_phase = some "steal" then
          let s2 := compute_results_locked now s1
          (some 0, { s2 with phase := "revealed",
                             host_message := "Timer: Results revealed." })
        else (some 0, s1)
      else if s1.mode = "mafia" then (some 0, s1)
      else
        let s2 := compute_results_locked now s1
        (some 0, { s2 with phase := "revealed",
                           host_message := "Timer: Results revealed." })

/-- Embedding of `tick_timer_locked` (line 2621): recompute the remaining
time; on first expiry set the `timer_expired` flag, optionally lock
submissions, and hand over to the auto-advance dispatch. -/
def tick_timer_locked (now : ℤ) (s : State) : Option ℤ × State :=
  match get_timer_remaining now s with
  | none => (none, s)
  | some remaining =>
    if 0 < remaining then (some remaining, s)
    else if s.timer_expired then (some 0, s)
    else
      let s0 := { s with timer_expired := true }
      let s1 :=
        if s0.late_submit_policy = "lock_after_timer" then
          { s0 with submissions_locked := true }
        else s0
      tick_auto_advance now s1

/-- The request-form fields `submit` reads.  A missing field is `none`
(`request.form.get` yields `None`); for the fields the source parses with
`int(...)`, `none` also stands for an unparsable value (the `except
ValueError` path), except `round_id` where parse failure becomes `-1`. -/
structure Form where
  round_id : Option ℤ
  vote : Option String
  wolf_target : Option String
  seer_target : Option String
  buzz : Option String
  choice : Option ℤ
  votebattle_text : String
  votebattle_vote : Option ℤ
  text_answer : String
  wavelength_guess : Option ℤ
  deriving Repr, DecidableEq

/-- The observable outcome of a `submit` request: redirect to the join page
(no usable identity), redirect back with a rejection message, or a plain
redirect after a successful recording. -/
inductive SubmitResult : Type
  | toIndex
  | ok
  | reject (msg : String)
  deriving Repr, DecidableEq

/-- The spyfall block of `submit` (lines 4325-4336). -/
def submit_spyfall (pid : String) (form : Form) (s : State) :
    SubmitResult × State :=
  if s.spyfall_phase ≠ some "vote" then (.reject "Voting is not active.", s)
  else if (s.submissions.lookup pid).isSome then (.reject "Already voted.", s)
  else
    match form.vote with
    | none => (.reject "Invalid selection.", s)
    | some target =>
        if (s.players.lookup target).isNone then (.reject "Invalid selection.", s)
        else if target = pid ∧ ¬ s.spyfall_allow_self_vote then
          (.reject "You cannot vote for yourself.", s)
        else (.ok, { s with submissions := dictSet s.submissions pid (.str target) })

/-- The mafia block of `submit` (lines 4338-4371). -/
def submit_mafia (pid : String) (form : Form) (s : State) :
    SubmitResult × State :=
  if pid ∉ s.mafia_alive then (.reject "You have been eliminated.", s)
  else
    let role := s.mafia_roles.lookup pid
    if s.mafia_phase = some "night" then
      if role = some "werewolf" then
        if (s.mafia_wolf_votes.lookup pid).isSome then
          (.reject "Already submitted.", s)
        else
          match form.wolf_target with
          | none => (.reject "Invalid target.", s)
          | some target =>
              if target ∉ s.mafia_alive ∨ target = pid then
                (.reject "Invalid target.", s)
              else (.ok, { s with mafia_wolf_votes := dictSet s.mafia_wolf_votes pid target })
      else if role = some "seer" then
        if (s.mafia_seer_results.lookup pid).isSome then
          (.reject "Already submitted.", s)
        else
          match form.seer_target with
          | none => (.reject "Invalid target.", s)
          | some target =>
              if target ∉ s.mafia_alive ∨ target = pid then
                (.reject "Invalid target.", s)
              else
                let is_werewolf := s.mafia_roles.lookup target = some "werewolf"
                (.ok, { s with mafia_seer_results :=
                          dictSet s.mafia_seer_results pid (target, is_werewolf) })
      else (.reject "You are asleep.", s)
    else if s.mafia_phase = some "day" then
      if (s.mafia_day_votes.lookup pid).isSome then (.reject "Already voted.", s)
      else
        match form.vote with
        | none => (.reject "Invalid selection.", s)
        | some target =>
            if target ∉ s.mafia_alive then (.reject "Invalid selection.", s)
            else (.ok, { s with mafia_day_votes := dictSet s.mafia_day_votes pid target })
    else (.reject "Voting is not active.", s)

/-- The trivia-buzzer / team-trivia block of `submit` (lines 4373-4440);
`now` is the `time.time()` the buzz path records. -/
def submit_buzzer (now : ℤ) (pid : String) (form : Form) (s : State) :
    SubmitResult × State :=
  if s.trivia_buzzer_phase = some "buzz" then
    if optStrTruthy s.buzz_winner_pid then (.reject "Buzz already locked.", s)
    else if form.buzz ≠ some "1" then (.reject "Buzz not received.", s)
    else if s.mode = "team_trivia" ∧ (s.teams.lookup pid).isNone then
      (.reject "Team not assigned.", s)
    else
      let w := select_buzz_winner s.buzz_winner_pid s.buzz_ts pid now
      let s1 := { s with buzz_winner_pid := some w.1, buzz_ts := some w.2 }
      (.ok, if s.mode = "team_trivia" then
        { s1 with buzz_winner_team_id := s.teams.lookup pid } else s1)
  else if s.trivia_buzzer_phase = some "answer" then
    if s.answer_choice.isSome then (.reject "Answer already submitted.", s)
    else
      let eligible : Option String :=
        if s.mode = "team_trivia" then
          match s.teams.lookup pid with
          | none => some "Your team did not buzz."
          | some tid =>
              if some tid ≠ s.buzz_winner_team_id then
                some "Your team did not buzz."
              else none
        else if s.buzz_winner_pid ≠ some pid then
          some "Only the buzz winner can answer."
        else none
      match eligible with
      | some msg => (.reject msg, s)
      | none =>
          match form.choice with
          | none => (.reject "Invalid selection.", s)
          | some choice =>
              if choice < 0 ∨ (s.options.length : ℤ) ≤ choice then
                (.reject "Invalid selection.", s)
              else
                let s1 := { s with answer_choice := some choice,
                                   answer_pid := some pid }
                (.ok, if s.mode = "team_trivia" then
                  { s1 with answer_team_id := s.teams.lookup pid } else s1)
  else if s.trivia_buzzer_phase = some "steal" then
    let ineligible : Option String :=
      if s.mode = "team_trivia" then
        match s.teams.lookup pid with
        | none => some "Your team cannot steal."
        | some tid =>
            if some tid = s.buzz_winner_team_id then
              some "Your team cannot steal."
            else none
      else if s.buzz_winner_pid = some pid then
        some "Buzz winner cannot steal."
      else none
    match ineligible with
    | some msg => (.reject msg, s)
    | none =>
        if (s.steal_attempts.lookup pid).isSome then
          (.reject "Already attempted to steal.", s)
        else
          match form.choice with
          | none => (.reject "Invalid selection.", s)
          | some choice =>
              if choice < 0 ∨ (s.options.length : ℤ) ≤ choice then
                (.reject "Invalid selection.", s)
              else (.ok, { s with steal_attempts := dictSet s.steal_attempts pid choice })
  else (.reject "Buzzer phase is not active.", s)

/-- The vote-battle block of `submit` (lines 4442-4475). -/
def submit_votebattle (oracles : TextOracles) (pid : String) (form : Form)
    (s : State) : SubmitResult × State :=
  if s.votebattle_phase = some "submit" then
    if (s.votebattle_entries.lookup pid).isSome then (.reject "Already submitted.", s)
    else
      let text := clean_text_answer form.votebattle_text VOTEBATTLE_MAX_LEN
      if text = "" then (.reject "Entry cannot be empty.", s)
      else
        match check_text_allowed oracles text s with
        | (some err, s1) => (.reject err, s1)
        | (none, s1) =>
            let entry_id := s1.votebattle_counter
            (.ok, { s1 with
              votebattle_entries := dictSet s1.votebattle_entries pid text,
              votebattle_counter := entry_id + 1,
              votebattle_order := s1.votebattle_order ++ [⟨entry_id, pid, text⟩] })
  else if s.votebattle_phase = some "vote" then
    if (s.votebattle_votes.lookup pid).isSome then (.reject "Already voted.", s)
    else
      match form.votebattle_vote with
      | none => (.reject "Invalid selection.", s)
      | some entry_id =>
          match s.votebattle_order.find? (fun e => e.id = entry_id) with
          | none => (.reject "Invalid selection.", s)
          | some entry =>
              if entry.pid = pid then
                (.reject "You cannot vote for your own entry.", s)
              else (.ok, { s with votebattle_votes := dictSet s.votebattle_votes pid entry_id })
  else (.reject "Voting is not active.", s)

/-- The single-store tail of `submit` (lines 4477-4524): shared duplicate
check over `submissions`, then the per-mode payload validation. -/
def submit_default (oracles : TextOracles) (pid : String) (form : Form)
    (s : State) : SubmitResult × State :=
  if (s.submissions.lookup pid).isSome then (.reject "Already submitted.", s)
  else if s.mode = "mlt" then
    match form.vote with
    | none => (.reject "Invalid selection.", s)
    | some target =>
        if (s.players.lookup target).isNone then (.reject "Invalid selection.", s)
        else (.ok, { s with submissions := dictSet s.submissions pid (.str target) })
  else if s.mode = "wyr" ∨ s.mode = "trivia" then
    match form.choice with
    | none => (.reject "Invalid selection.", s)
    | some choice =>
        if s.mode = "wyr" ∧ choice ≠ 0 ∧ choice ≠ 1 then
          (.reject "Invalid selection.", s)
        else if s.mode = "trivia" ∧
            (choice < 0 ∨ (s.options.length : ℤ) ≤ choice) then
          (.reject "Invalid selection.", s)
        else (.ok, { s with submissions := dictSet s.submissions pid (.int choice) })
  else if s.mode = "hotseat" then
    let text := clean_text_answer form.text_answer TEXT_MAX_LEN
    if text = "" then (.reject "Answer cannot be empty.", s)
    else
      match check_text_allowed oracles text s with
      | (some err, s1) => (.reject err, s1)
      | (none, s1) => (.ok, { s1 with submissions := dictSet s1.submissions pid (.str text) })
  else if s.mode = "quickdraw" then
    let text := clean_text_answer form.text_answer QUICKDRAW_MAX_LEN
    if text = "" then (.reject "Answer cannot be empty.", s)
    else
      match check_text_allowed oracles text s with
      | (some err, s1) => (.reject err, s1)
      | (none, s1) => (.ok, { s1 with submissions := dictSet s1.submissions pid (.str text) })
  else if s.mode = "wavelength" then
    match form.wavelength_guess with
    | none => (.reject "Invalid guess.", s)
    | some guess =>
        if guess < 0 ∨ 100 < guess then (.reject "Guess must be 0 to 100.", s)
        else (.ok, { s with submissions := dictSet s.submissions pid (.int guess) })
  else (.reject "Unknown mode.", s)

/-- Embedding of the `submit` request handler (line 4303): identity and
lifecycle guards, then dispatch on the mode.  `pid` is the cookie value
(`""` for a missing cookie: `if not pid` redirects); `now` is the
`time.time()` a buzz would record. -/
def submit (oracles : TextOracles) (now : ℤ) (pid : String) (form : Form)
    (s : State) : SubmitResult × State :=
  if pid = "" then (.toIndex, s)
  else
    let round_id := form.round_id.getD (-1)
    if (s.players.lookup pid).isNone then (.toIndex, s)
    else if s.phase ≠ "in_round" then (.reject "Round is not active.", s)
    else if round_id ≠ s.round_id then (.reject "Round has changed.", s)
    else if s.submissions_locked then (.reject "Submissions are locked.", s)
    else if s.mode = "spyfall" then submit_spyfall pid form s
    else if s.mode = "mafia" then submit_mafia pid form s
    else if s.mode = "trivia_buzzer" ∨ s.mode = "team_trivia" then
      submit_buzzer now pid form s
    else if s.mode = "votebattle" then submit_votebattle oracles pid form s
    else submit_default oracles pid form s

/-- The randomness and catalog draws a round start consumes, supplied as
oracles: `shuffledPids` is the `random.shuffle` of the player ids in
`assign_mafia_roles`, `spyChoiceIdx` reads the `random.choice` of the spy,
`shuffledPool` the `random.shuffle` of the spyfall role pool, `randTarget`
the `random.randint(0, 100)` wavelength target, and `locationRoles` the
lookup of `spyfall_roles_for_location` in the read-only location catalog
(content catalogs are external collaborators). -/
structure RoundRand where
  shuffledPids : List String
  spyChoiceIdx : ℕ
  shuffledPool : List String → List String
  randTarget : ℤ
  locationRoles : String → List String

/-- Embedding of `assign_mafia_roles` (line 3242); `shuffled` is the oracle
for `random.shuffle(pids[:])`.  The roles dict is built wolves first, then
the seer, then villagers, in shuffled order. -/
def assign_mafia_roles (shuffled : List String) (pids : List String)
    (seer_enabled : Bool) (auto_wolf_count : Bool) (wolf_count : ℤ) :
    List (String × String) :=
  if pids.length < MAFIA_MIN_PLAYERS then []
  else
    let wc0 : ℤ :=
      if auto_wolf_count then (if 7 ≤ pids.length then 2 else 1)
      else max 1 (min 2 (if wolf_count ≠ 0 then wolf_count else 1))
    let seer_count : ℕ := if seer_enabled ∧ 4 ≤ pids.length then 1 else 0
    let max_wolves : ℤ := max 1 ((pids.length : ℤ) - seer_count - 1)
    let wc : ℕ := (min wc0 max_wolves).toNat
    (shuffled.take wc).map (fun pid => (pid, "werewolf"))
      ++ ((shuffled.drop wc).take seer_count).map (fun pid => (pid, "seer"))
      ++ (shuffled.drop (wc + seer_count)).map (fun pid => (pid, "villager"))

/-- Embedding of `assign_spyfall_roles` (line 3222) with the random draws
read from the oracle. -/
def assign_spyfall_roles (rand : RoundRand) (roles_pool : List String)
    (s : State) : State :=
  let pids := s.players.map (·.1)
  if pids = [] then s
  else
    let spy_pid := pids.getD (rand.spyChoiceIdx % pids.length) ""
    let pool0 := if roles_pool ≠ [] then roles_pool else rand.locationRoles s.prompt
    let pool1 := if pool0 = [] then ["Local", "Visitor"] else pool0
    let pool := rand.shuffledPool pool1
    let others := pids.filter (· ≠ spy_pid)
    let roles := others.enum.map
      (fun p => (p.2, pool.getD (p.1 % pool.length) ""))
    { s with spyfall_spy_pid := some spy_pid, spyfall_roles := roles }

/-- The tuple `resolve_prompt_for_mode` (line 3155) returns.  Prompt
resolution draws on the read-only content catalogs and the no-immediate-
repeat random bags (external collaborators per the spec), so the resolved
tuple is an input of the round start here. -/
structure ResolvedPrompt where
  prompt : Option String
  options : List String
  correct_index : Option ℤ
  manual_target : Option ℤ
  err : Option String

/-- The tail of `start_new_round_locked` past the guards: re-arm the timer
on the freshly initialized state `s1` and run the chosen mode's sub-phase
initialization (lines 3340-3394).  `s1.timer_seconds` is the unchanged
`STATE["timer_seconds"]` the source reads after its bulk `update`. -/
def start_round_mode_init (rand : RoundRand) (resolved : ResolvedPrompt)
    (now : ℤ) (mode : String) (prompt : String) (s1 : State) : State :=
  let s2 := reset_timer_locked now (some s1.timer_seconds) s1
  let s3 :=
    if mode = "trivia_buzzer" ∨ mode = "team_trivia" then
      { s2 with trivia_buzzer_phase := some "buzz",
                trivia_buzzer_question := prompt,
                trivia_buzzer_options := resolved.options,
                trivia_buzzer_correct_index := resolved.correct_index }
    else s2
  let s4 :=
    if mode = "votebattle" then
      { s3 with votebattle_phase := some "submit" }
    else s3
  let s5 :=
    if mode = "spyfall" then
      assign_spyfall_roles rand resolved.options
        { s4 with spyfall_phase := some "question",
                  spyfall_location := prompt }
    else s4
  if mode = "mafia" then
    { s5 with
      mafia_roles := assign_mafia_roles rand.shuffledPids
        (s5.players.map (·.1)) s5.mafia_seer_enabled
        s5.mafia_auto_wolf_count s5.mafia_wolf_count,
      mafia_alive := s5.players.map (·.1),
      mafia_phase := some "night" }
  else s5

/-- Embedding of `start_new_round_locked` (line 3295): precondition checks,
then increment `round_id` once, clear all submission and sub-phase state,
re-arm the timer, and initialize the chosen mode's automaton. -/
def start_new_round_locked (rand : RoundRand) (resolved : ResolvedPrompt)
    (now : ℤ) (mode : String) (s : State) : Bool × State :=
  if optStrTruthy resolved.err then
    (false, { s with host_message := resolved.err.getD "" })
  else
    match resolved.prompt with
    | none => (false, { s with host_message := "Prompt could not be loaded." })
    | some prompt =>
        if mode = "team_trivia" ∧ ¬ s.teams_enabled then
          (false, { s with host_message := "Team Trivia requires teams enabled." })
        else if mode = "mafia" ∧ s.players.length < MAFIA_MIN_PLAYERS then
          (false, { s with host_message := "Mafia needs at least 3 players." })
        else
          let s1 := { s with
            round_id := s.round_id + 1,
            mode := mode,
            phase := "in_round",
            prompt := prompt,
            options := resolved.options,
            correct_index := resolved.correct_index,
            trivia_buzzer_phase := none,
            trivia_buzzer_question := "",
            trivia_buzzer_options := [],
            trivia_buzzer_correct_index := none,
            buzz_winner_pid := none,
            buzz_winner_team_id := none,
            buzz_ts := none,
            answer_pid := none,
            answer_team_id := none,
            answer_choice := none,
            steal_attempts := [],
            trivia_buzzer_result := none,
            submissions_locked := false,
            round_start_ts := some now,
            wavelength_target :=
              if mode = "wavelength" then
                some (resolved.manual_target.getD rand.randTarget)
              else none,
            submissions := [],
            votebattle_phase := none,
            votebattle_entries := [],
            votebattle_votes := [],
            votebattle_order := [],
            votebattle_counter := 0,
            spyfall_phase := none,
            spyfall_location := "",
            spyfall_spy_pid := none,
            spyfall_roles := [],
            mafia_phase := none,
            mafia_roles := [],
            mafia_alive := [],
            mafia_wolf_votes := [],
            mafia_day_votes := [],
            mafia_seer_results := [],
            mafia_last_eliminated := none,
            last_result := none }
          (true, start_round_mode_init rand resolved now mode prompt s1)

/-- The `start_round` host action (lines 4922-4929). -/
def host_start_round (rand : RoundRand) (resolved : ResolvedPrompt)
    (now : ℤ) (s : State) : State :=
  if s.phase = "in_round" then
    { s with host_message := "Round already in progress." }
  else if s.players = [] then { s with host_message := "No players yet." }
  else
    let r := start_new_round_locked rand resolved now s.mode s
    if r.1 then { r.2 with host_message := "Round started." } else r.2

/-- The `next_round` host action (lines 4946-4953). -/
def host_next_round (rand : RoundRand) (resolved : ResolvedPrompt)
    (now : ℤ) (s : State) : State :=
  if s.phase = "in_round" then
    { s with host_message := "Reveal results before starting next round." }
  else if s.players = [] then { s with host_message := "No players yet." }
  else
    let r := start_new_round_locked rand resolved now s.mode s
    if r.1 then { r.2 with host_message := "Next round started." } else r.2

/-- The `kick_all` host action (lines 5075-5120): lobby-wide reset that
clears all players, scores and round state and sets `round_id` back to 0. -/
def host_kick_all (s : State) : State :=
  let s1 := { s with
    players := [], scores := [], teams := [], submissions := [],
    phase := "lobby", prompt := "", options := [], correct_index := none,
    trivia_buzzer_phase := none, trivia_buzzer_question := "",
    trivia_buzzer_options := [], trivia_buzzer_correct_index := none,
    buzz_winner_pid := none, buzz_winner_team_id := none, buzz_ts := none,
    answer_pid := none, answer_team_id := none, answer_choice := none,
    steal_attempts := [], trivia_buzzer_result := none,
    wavelength_target := none, submissions_locked := false,
    votebattle_phase := none, votebattle_entries := [],
    votebattle_votes := [], votebattle_order := [], votebattle_counter := 0,
    spyfall_phase := none, spyfall_location := "", spyfall_spy_pid := none,
    spyfall_roles := [], mafia_phase := none, mafia_roles := [],
    mafia_alive := [], mafia_wolf_votes := [], mafia_day_votes := [],
    mafia_seer_results := [], mafia_last_eliminated := none,
    round_start_ts := none }
  let s2 := stop_timer_locked s1
  { s2 with last_result := none, round_id := 0, reclaim_requests := [],
            reclaim_notices := [], host_message := "All players removed." }

/-- The `mafia_start_day` host action (lines 5401-5429): resolve the night,
`random.choice` among tied targets read from the oracle index `k`,
`time.time()` from `now`. -/
def mafia_start_day (k : ℕ) (now : ℤ) (s : State) : State :=
  if s.mode ≠ "mafia" then
    { s with host_message := "Mafia actions are only for Mafia mode." }
  else if s.phase ≠ "in_round" then { s with host_message := "No active round." }
  else if s.mafia_phase ≠ some "night" then
    { s with host_message := "Night is already resolved." }
  else
    let alive := s.mafia_alive
    let victim := resolve_mafia_vote k s.mafia_wolf_votes alive
    let s1 :=
      match victim with
      | some v =>
          if v ≠ "" then
            { s with mafia_alive := alive.filter (· ≠ v),
                     mafia_last_eliminated := some v }
          else { s with mafia_last_eliminated := none }
      | none => { s with mafia_last_eliminated := none }
    let s2 := { s1 with mafia_wolf_votes := [] }
    match check_mafia_win s2.mafia_alive s2.mafia_roles with
    | some winner =>
        let s3 := compute_results_locked now { s2 with mafia_phase := some "over" }
        { s3 with phase := "revealed", submissions_locked := true,
                  host_message := winner.capitalize ++ " win!" }
    | none =>
        let s3 := reset_timer_locked now (some s.vote_timer_seconds)
          { s2 with mafia_phase := some "day", mafia_day_votes := [],
                    submissions_locked := false }
        { s3 with host_message := "Day started." }

/-- The `mafia_resolve_day` host action (lines 5431-5460). -/
def mafia_resolve_day (k : ℕ) (now : ℤ) (s : State) : State :=
  if s.mode ≠ "mafia" then
    { s with host_message := "Mafia actions are only for Mafia mode." }
  else if s.phase ≠ "in_round" then { s with host_message := "No active round." }
  else if s.mafia_phase ≠ some "day" then
    { s with host_message := "Day is not active." }
  else
    let alive := s.mafia_alive
    let eliminated := resolve_mafia_vote k s.mafia_day_votes alive
    let s1 :=
      match eliminated with
      | some v =>
          if v ≠ "" then
            { s with mafia_alive := alive.filter (· ≠ v),
                     mafia_last_eliminated := some v }
          else { s with mafia_last_eliminated := none }
      | none => { s with mafia_last_eliminated := none }
    match check_mafia_win s1.mafia_alive s1.mafia_roles with
    | some winner =>
        let s2 := compute_results_locked now { s1 with mafia_phase := some "over" }
        { s2 with phase := "revealed", submissions_locked := true,
                  host_message := winner.capitalize ++ " win!" }
    | none =>
        let s2 := reset_timer_locked now (some s.timer_seconds)
          { s1 with mafia_phase := some "night", mafia_wolf_votes := [],
                    mafia_day_votes := [], mafia_seer_results := [],
                    submissions_locked := false }
        { s2 with host_message := "Night started." }

/-- Whether a recorded entry already exists for the sub-phase the next
submission by `pid` would target: the store each recording branch of
`submit` writes, per mode and sub-phase.  In the buzzer modes the buzz and
answer records are single slots (`buzz_winner_pid` / `answer_choice`), so
"the submitter — participant or, in the team variant, their team — already
has a recorded entry" is an instance of the slot being filled: once any
buzz or answer is recorded, a resubmission by the recorded participant, by
a member of the recorded team, or by anyone else is a duplicate for that
sub-phase. -/
def hasRecordedEntry (s : State) (pid : String) : Bool :=
  if s.mode = "spyfall" then (s.submissions.lookup pid).isSome
  else if s.mode = "mafia" then
    if s.mafia_phase = some "night" then
      if s.mafia_roles.lookup pid = some "werewolf" then
        (s.mafia_wolf_votes.lookup pid).isSome
      else if s.mafia_roles.lookup pid = some "seer" then
        (s.mafia_seer_results.lookup pid).isSome
      else false
    else if s.mafia_phase = some "day" then
      (s.mafia_day_votes.lookup pid).isSome
    else false
  else if s.mode = "trivia_buzzer" ∨ s.mode = "team_trivia" then
    if s.trivia_buzzer_phase = some "buzz" then optStrTruthy s.buzz_winner_pid
    else if s.trivia_buzzer_phase = some "answer" then s.answer_choice.isSome
    else if s.trivia_buzzer_phase = some "steal" then
      (s.steal_attempts.lookup pid).isSome
    else false
  else if s.mode = "votebattle" then
    if s.votebattle_phase = some "submit" then
      (s.votebattle_entries.lookup pid).isSome
    else if s.votebattle_phase = some "vote" then
      (s.votebattle_votes.lookup pid).isSome
    else false
  else (s.submissions.lookup pid).isSome

/-- `t` agrees with `s` on every field of the aggregate except possibly the
host-facing message. -/
def eqExceptHostMsg (s t : State) : Prop :=
  t = { s with host_message := t.host_message }

/-- The initial value of the `STATE` dict (line 455), restricted to the
embedded fields; used to build concrete scenario states. -/
def baseState : State where
  phase := "lobby"
  mode := "mlt"
  round_id := 0
  players := []
  teams_enabled := false
  teams := []
  scores := []
  prompt := ""
  options := []
  correct_index := none
  trivia_buzzer_phase := none
  trivia_buzzer_question := ""
  trivia_buzzer_options := []
  trivia_buzzer_correct_index := none
  buzz_winner_pid := none
  buzz_winner_team_id := none
  buzz_ts := none
  answer_pid := none
  answer_team_id := none
  answer_choice := none
  steal_attempts := []
  trivia_buzzer_result := none
  trivia_buzzer_steal_enabled := true
  wavelength_target := none
  submissions := []
  submissions_locked := false
  votebattle_phase := none
  votebattle_entries := []
  votebattle_votes := []
  votebattle_order := []
  votebattle_counter := 0
  spyfall_phase := none
  spyfall_location := ""
  spyfall_spy_pid := none
  spyfall_roles := []
  spyfall_auto_start_vote_on_timer := true
  spyfall_allow_self_vote := false
  mafia_phase := none
  mafia_roles := []
  mafia_alive := []
  mafia_wolf_votes := []
  mafia_day_votes := []
  mafia_seer_results := []
  mafia_last_eliminated := none
  mafia_seer_enabled := true
  mafia_auto_wolf_count := true
  mafia_wolf_count := 1
  mafia_reveal_roles_on_end := true
  last_result := none
  history := []
  host_message := ""
  reclaim_requests := []
  reclaim_notices := []
  filter_mode := "mild"
  openai_moderation_enabled := false
  timer_enabled := false
  timer_seconds := 45
  vote_timer_seconds := 30
  auto_advance := true
  late_submit_policy := "lock_after_timer"
  round_start_ts := none
  timer_start_ts := none
  timer_duration := none
  timer_expired := false
  wyr_points_majority := false
  quickdraw_scoring := "unique"

/-- The property claimed of the majority-vote result computation: the stored
result carries the per-player tally and the winner list, the winners are
exactly the players whose tally equals the positive maximum (all ties win),
and exactly the winners gain one point. -/
def MltResultSpec (now : ℤ) (s : State) : Prop :=
  (compute_results_locked now s).last_result =
    some ⟨s.mode, s.round_id, s.prompt, s.options,
      ResultData.mlt (mltTally s) (mltWinners (mltTally s)).1
        (mltWinners (mltTally s)).2⟩ ∧
  (∀ pid, pid ∈ (mltWinners (mltTally s)).1 ↔
    ((pid, (mltWinners (mltTally s)).2) ∈ mltTally s ∧
      0 < (mltWinners (mltTally s)).2)) ∧
  (∀ pid n, (pid, n) ∈ mltTally s → n ≤ (mltWinners (mltTally s)).2) ∧
  (∀ pid, pid ∈ (mltWinners (mltTally s)).1 →
    (compute_results_locked now s).scores.lookup pid =
      some ((s.scores.lookup pid).getD 0 + 1)) ∧
  (∀ pid, pid ∉ (mltWinners (mltTally s)).1 →
    (compute_results_locked now s).scores.lookup pid = s.scores.lookup pid)

/-- A majority-vote round with votes A:2, B:2, C:1 (the spec's worked
example). -/
def exMlt : State :=
  { baseState with
    mode := "mlt"
    phase := "in_round"
    round_id := 4
    players := [("A", "Ann"), ("B", "Bob"), ("C", "Cyd"), ("D", "Dan"),
      ("E", "Eva")]
    submissions := [("A", .str "B"), ("B", .str "B"), ("C", .str "A"),
      ("D", .str "A"), ("E", .str "C")] }

/-- A trivia-buzzer round in the buzz sub-phase with no buzz recorded yet. -/
def exBuzz : State :=
  { baseState with
    mode := "trivia_buzzer"
    phase := "in_round"
    round_id := 2
    players := [("p1", "Ann"), ("p2", "Bob")]
    options := ["w", "x", "y", "z"]
    trivia_buzzer_phase := some "buzz"
    trivia_buzzer_correct_index := some 1 }

/-- The form of a buzz submission for round 2. -/
def exBuzzForm : Form :=
  ⟨some 2, none, none, none, some "1", none, "", none, "", none⟩

/-- A mafia night round with an armed, already-elapsed timer. -/
def exMafiaTick : State :=
  { baseState with
    mode := "mafia"
    phase := "in_round"
    round_id := 1
    players := [("a", "Ann"), ("b", "Bob"), ("c", "Cyd")]
    mafia_phase := some "night"
    mafia_roles := [("a", "werewolf"), ("b", "villager"), ("c", "villager")]
    mafia_alive := ["a", "b", "c"]
    timer_enabled := true
    timer_start_ts := some 5
    timer_duration := some 10
    auto_advance := true }

/-- A round with an armed timer (deadline 5+10) and auto-advance off. -/
def exTick : State :=
  { baseState with
    mode := "mlt"
    phase := "in_round"
    round_id := 1
    players := [("p1", "Ann")]
    timer_enabled := true
    timer_start_ts := some 5
    timer_duration := some 10
    auto_advance := false }

/-- `exTick` after its timer fired at time 50: expired flag set and
submissions locked under the lock-after-timer policy. -/
def exTickFired : State :=
  { exTick with timer_expired := true, submissions_locked := true }

/-- A spyfall vote round where `p1` has already voted. -/
def exDup : State :=
  { baseState with
    mode := "spyfall"
    phase := "in_round"
    round_id := 3
    players := [("p1", "Ann"), ("p2", "Bob"), ("p3", "Cyd")]
    spyfall_phase := some "vote"
    spyfall_spy_pid := some "p2"
    submissions := [("p1", .str "p2")] }

/-- A team-trivia answer sub-phase where team 1 buzzed and its member `p1`
already answered; `p2` is a different member of that recorded team. -/
def exDupTeam : State :=
  { baseState with
    mode := "team_trivia"
    phase := "in_round"
    round_id := 3
    players := [("p1", "Ann"), ("p2", "Bob"), ("p3", "Cyd")]
    teams_enabled := true
    teams := [("p1", 1), ("p2", 1), ("p3", 2)]
    options := ["x", "y"]
    trivia_buzzer_phase := some "answer"
    buzz_winner_pid := some "p1"
    buzz_winner_team_id := some 1
    buzz_ts := some 5
    answer_choice := some 0
    answer_pid := some "p1"
    answer_team_id := some 1 }

/-- What actually holds of a `submit` outcome `r` against the entry state
`s`: a rejection leaves every field but the host-facing message unchanged,
and the message field moves only on the moderation-unavailable content
rejection. -/
def C4Ok (s : State) (r : SubmitResult × State) : Prop :=
  (r.1 ≠ SubmitResult.ok →
    r.2 = { s with host_message := r.2.host_message }) ∧
  (r.2.host_message ≠ s.host_message →
    r.1 = SubmitResult.reject "Moderation unavailable.")

/-- A hotseat round with OpenAI moderation enabled and a prior host
message. -/
def exC4 : State :=
  { baseState with
    mode := "hotseat"
    phase := "in_round"
    round_id := 1
    players := [("p1", "Ann")]
    openai_moderation_enabled := true
    host_message := "ready" }

/-- A lobby with one player and five completed rounds. -/
def exC8 : State :=
  { baseState with round_id := 5, players := [("p1", "Ann")] }

/-- A four-player mafia night with no wolf votes recorded. -/
def exC9 : State :=
  { baseState with
    mode := "mafia"
    phase := "in_round"
    round_id := 1
    players := [("a", "A"), ("b", "B"), ("c", "C"), ("d", "D")]
    mafia_phase := some "night"
    mafia_roles := [("a", "werewolf"), ("b", "villager"), ("c", "villager"),
      ("d", "villager")]
    mafia_alive := ["a", "b", "c", "d"] }

/-- The same night with two wolf votes on player b. -/
def exC9b : State :=
  { exC9 with mafia_wolf_votes := [("a", "b"), ("c", "b")] }

section DictLemmas

variable {α : Type}

lemma lookup_cons (k a : String) (b : α) (t : List (String × α)) :
    List.lookup k ((a, b) :: t) = if k = a then some b else List.lookup k t := by
  by_cases h : k = a
  · have hb : (k == a) = true := beq_iff_eq.mpr h
    simp [List.lookup, hb, h]
  · have hb : (k == a) = false := beq_eq_false_iff_ne.mpr h
    simp [List.lookup, hb, h]

lemma lookup_replace_self (k : String) (v : α) :
    ∀ m : List (String × α), (m.lookup k).isSome = true →
      (m.map (fun kv => if kv.1 = k then (k, v) else kv)).lookup k = some v := by
  intro m
  induction m with
  | nil => simp [List.lookup]
  | cons hd t ih =>
      obtain ⟨a, b⟩ := hd
      intro h
      rw [lookup_cons] at h
      by_cases hk : a = k
      · subst hk
        simp only [List.map_cons]
        rw [if_pos (by trivial), lookup_cons, if_pos rfl]
      · have hka : ¬ k = a := fun he => hk he.symm
        rw [if_neg hka] at h
        simp only [List.map_cons]
        rw [if_neg hk, lookup_cons, if_neg hka]
        exact ih h

lemma lookup_append_none (k : String) (v : α) :
    ∀ m : List (String × α), m.lookup k = none →
      (m ++ [(k, v)]).lookup k = some v := by
  intro m
  induction m with
  | nil => simp [List.lookup]
  | cons hd t ih =>
      obtain ⟨a, b⟩ := hd
      intro h
      rw [lookup_cons] at h
      by_cases hka : k = a
      · rw [if_pos hka] at h; cases h
      · rw [if_neg hka] at h
        rw [List.cons_append, lookup_cons, if_neg hka]
        exact ih h

lemma dictSet_lookup_self (m : List (String × α)) (k : String) (v : α) :
    (dictSet m k v).lookup k = some v := by
  unfold dictSet
  split
  · exact lookup_replace_self k v m (by assumption)
  · rename_i h
    exact lookup_append_none k v m (Option.not_isSome_iff_eq_none.mp h)

lemma lookup_replace_ne (k q : String) (v : α) (hq : q ≠ k) :
    ∀ m : List (String × α),
      (m.map (fun kv => if kv.1 = k then (k, v) else kv)).lookup q = m.lookup q := by
  intro m
  induction m with
  | nil => simp
  | cons hd t ih =>
      obtain ⟨a, b⟩ := hd
      simp only [List.map_cons]
      by_cases hk : a = k
      · subst hk
        rw [if_pos (by trivial), lookup_cons, lookup_cons, if_neg hq, if_neg hq]
        exact ih
      · rw [if_neg hk, lookup_cons, lookup_cons]
        by_cases hqa : q = a
        · rw [if_pos hqa, if_pos hqa]
        · rw [if_neg hqa, if_neg hqa]
          exact ih

lemma lookup_append_ne (k q : String) (v : α) (hq : q ≠ k) :
    ∀ m : List (String × α), (m ++ [(k, v)]).lookup q = m.lookup q := by
  intro m
  induction m with
  | nil =>
      have hb : (q == k) = false := beq_eq_false_iff_ne.mpr hq
      simp [List.lookup, hb]
  | cons hd t ih =>
      obtain ⟨a, b⟩ := hd
      rw [List.cons_append, lookup_cons, lookup_cons]
      by_cases hqa : q = a
      · rw [if_pos hqa, if_pos hqa]
      · rw [if_neg hqa, if_neg hqa]
        exact ih

lemma dictSet_lookup_ne (m : List (String × α)) (k q : String) (v : α)
    (hq : q ≠ k) : (dictSet m k v).lookup q = m.lookup q := by
  unfold dictSet
  split
  · exact lookup_replace_ne k q v hq m
  · exact lookup_append_ne k q v hq m

lemma scoreAdd_lookup_self (scores : List (String × ℤ)) (pid : String)
    (δ : ℤ) :
    (scoreAdd scores pid δ).lookup pid = some ((scores.lookup pid).getD 0 + δ) :=
  dictSet_lookup_self ..

lemma scoreAdd_lookup_ne (scores : List (String × ℤ)) (pid q : String)
    (δ : ℤ) (hq : q ≠ pid) :
    (scoreAdd scores pid δ).lookup q = scores.lookup q :=
  dictSet_lookup_ne _ _ _ _ hq

lemma foldl_scoreAdd_not_mem (δ : ℤ) :
    ∀ (pids : List String) (scores : List (String × ℤ)) (q : String),
      q ∉ pids →
      (pids.foldl (fun sc pid => scoreAdd sc pid δ) scores).lookup q =
        scores.lookup q := by
  intro pids
  induction pids with
  | nil => intro scores q _; rfl
  | cons p t ih =>
      intro scores q hq
      have hqp : q ≠ p := fun h => hq (h ▸ List.mem_cons_self p t)
      have hqt : q ∉ t := fun h => hq (List.mem_cons_of_mem p h)
      simp only [List.foldl_cons]
      rw [ih _ _ hqt, scoreAdd_lookup_ne _ _ _ _ hqp]

lemma foldl_scoreAdd_mem (δ : ℤ) :
    ∀ (pids : List String) (scores : List (String × ℤ)) (q : String),
      pids.Nodup → q ∈ pids →
      (pids.foldl (fun sc pid => scoreAdd sc pid δ) scores).lookup q =
        some ((scores.lookup q).getD 0 + δ) := by
  intro pids
  induction pids with
  | nil => intro scores q _ hq; cases hq
  | cons p t ih =>
      intro scores q hnd hq
      have hpt : p ∉ t := (List.nodup_cons.mp hnd).1
      have hndt : t.Nodup := (List.nodup_cons.mp hnd).2
      simp only [List.foldl_cons]
      rcases List.mem_cons.mp hq with hqp | hqt
      · subst hqp
        rw [foldl_scoreAdd_not_mem δ t _ q hpt, scoreAdd_lookup_self]
      · have hqp : q ≠ p := fun h => hpt (h ▸ hqt)
        rw [ih _ _ hndt hqt, scoreAdd_lookup_ne _ _ _ _ hqp]

end DictLemmas

section ListLemmas

variable {α : Type} [DecidableEq α]

lemma mem_dedupKeys : ∀ (l : List α) (x : α), x ∈ dedupKeys l ↔ x ∈ l := by
  intro l
  induction l with
  | nil => intro x; rfl
  | cons a t ih =>
      intro x
      rw [dedupKeys]
      by_cases hxa : x = a
      · subst hxa
        simp
      · simp only [List.mem_cons, hxa, false_or, List.mem_filter]
        rw [ih x]
        simp [hxa]

lemma nodup_dedupKeys : ∀ l : List α, (dedupKeys l).Nodup := by
  intro l
  induction l with
  | nil => exact List.nodup_nil
  | cons a t ih =>
      rw [dedupKeys]
      refine List.nodup_cons.mpr ⟨?_, ih.filter _⟩
      intro hmem
      simp [List.mem_filter] at hmem

lemma foldl_max_init_le (l : List ℕ) : ∀ a : ℕ, a ≤ l.foldl max a := by
  induction l with
  | nil => intro a; exact le_refl a
  | cons b t ih =>
      intro a
      exact le_trans (le_max_left a b) (ih (max a b))

lemma mem_le_foldl_max (l : List ℕ) : ∀ (a x : ℕ), x ∈ l → x ≤ l.foldl max a := by
  induction l with
  | nil => intro a x hx; cases hx
  | cons b t ih =>
      intro a x hx
      rcases List.mem_cons.mp hx with hxb | hxt
      · subst hxb
        exact le_trans (le_max_right a x) (foldl_max_init_le t (max a x))
      · exact ih (max a b) x hxt

end ListLemmas

lemma nodup_fst_filter_map {α β : Type} (P : α × β → Bool)
    (l : List (α × β)) (h : (l.map Prod.fst).Nodup) :
    ((l.filter P).map Prod.fst).Nodup :=
  ((List.filter_sublist l).map Prod.fst).nodup h

section SkeletonLemmas

/-- `append_history_locked` changes only the `history` field. -/
lemma append_history_skeleton (now : ℤ) (s : State) (result : RoundResult) :
    append_history_locked now s result =
      { s with history := (append_history_locked now s result).history } := by
  simp only [append_history_locked]
  split
  · split <;> rfl
  · rfl

/-- `compute_results_locked` changes only `scores`, `trivia_buzzer_result`,
`last_result` and `history`. -/
lemma compute_results_skeleton (now : ℤ) (s : State) :
    ∃ sc tb lr hi, compute_results_locked now s =
      { s with scores := sc, trivia_buzzer_result := tb,
               last_result := lr, history := hi } := by
  simp only [compute_results_locked]
  rw [append_history_skeleton]
  split
  · exact ⟨_, _, _, _, rfl⟩
  · exact ⟨_, _, _, _, rfl⟩

end SkeletonLemmas

section MajorityVote

lemma computeResultPair_mlt (s : State) (hmode : s.mode = "mlt") :
    computeResultPair s =
      (.mlt (mltTally s) (mltWinners (mltTally s)).1 (mltWinners (mltTally s)).2,
       (mltWinners (mltTally s)).1.foldl (fun sc pid => scoreAdd sc pid 1) s.scores) := by
  unfold computeResultPair
  rw [if_pos hmode]

lemma compute_results_not_buzzer_key (now : ℤ) (s : State)
    (h2 : ¬ (s.mode = "trivia_buzzer" ∨ s.mode = "team_trivia")) :
    compute_results_locked now s =
      append_history_locked now
        { s with scores := (computeResultPair s).2,
                 last_result := some ⟨s.mode, s.round_id, s.prompt, s.options,
                   (computeResultPair s).1⟩ }
        ⟨s.mode, s.round_id, s.prompt, s.options, (computeResultPair s).1⟩ := by
  simp only [compute_results_locked]
  rw [if_neg h2]

/-- C7: in majority-vote (`mlt`) mode, `compute_results_locked` tallies the
votes per target player, the winners are exactly the targets at the maximum
tally when that maximum is positive (all tied targets win), and each
winner's score increases by exactly one point while every other score is
unchanged. -/
theorem compute_results_mlt_majority (now : ℤ) (s : State)
    (hmode : s.mode = "mlt") : MltResultSpec now s := by
  have h2 : ¬ (s.mode = "trivia_buzzer" ∨ s.mode = "team_trivia") := by
    rw [hmode]; decide
  have hkey := compute_results_not_buzzer_key now s h2
  rw [computeResultPair_mlt s hmode] at hkey
  have hnodup : ((mltTally s).map Prod.fst).Nodup := by
    unfold mltTally
    rw [List.map_map]
    have : (Prod.fst ∘ fun pid =>
        (pid, (s.submissions.filter (fun kv => kv.2 = SubVal.str pid)).length))
        = (id : String → String) := rfl
    rw [this, List.map_id]
    exact nodup_dedupKeys _
  have hwnodup : (mltWinners (mltTally s)).1.Nodup := by
    unfold mltWinners
    exact nodup_fst_filter_map _ _ hnodup
  refine ⟨?_, ?_, ?_, ?_, ?_⟩
  · rw [hkey, append_history_skeleton]
  · intro pid
    simp only [mltWinners, List.mem_map, List.mem_filter]
    constructor
    · rintro ⟨⟨p, n⟩, ⟨hmem, hcond⟩, hfst⟩
      rcases of_decide_eq_true hcond with ⟨hn, hpos⟩
      dsimp only at hfst hn hpos
      subst hfst
      subst hn
      exact ⟨hmem, hpos⟩
    · rintro ⟨hmem, hpos⟩
      refine ⟨(pid, ((mltTally s).map (·.2)).foldl max 0), ⟨hmem, ?_⟩, rfl⟩
      exact decide_eq_true ⟨rfl, hpos⟩
  · intro pid n hmem
    show n ≤ ((mltTally s).map (·.2)).foldl max 0
    exact mem_le_foldl_max _ 0 n (List.mem_map_of_mem (·.2) hmem)
  · intro pid hpid
    rw [hkey, append_history_skeleton]
    exact foldl_scoreAdd_mem 1 _ s.scores pid hwnodup hpid
  · intro pid hpid
    rw [hkey, append_history_skeleton]
    exact foldl_scoreAdd_not_mem 1 _ s.scores pid hpid

/-- Witness for C7 at the spec's example: votes A:2, B:2, C:1 give winners
A and B with `max_votes` 2, both scored +1. -/
theorem compute_results_mlt_majority_witness :
    exMlt.mode = "mlt" ∧ MltResultSpec 0 exMlt ∧
    mltWinners (mltTally exMlt) = (["A", "B"], 2) ∧
    (compute_results_locked 0 exMlt).scores.lookup "A" = some 1 ∧
    (compute_results_locked 0 exMlt).scores.lookup "B" = some 1 ∧
    (compute_results_locked 0 exMlt).scores.lookup "C" = none :=
  ⟨rfl, compute_results_mlt_majority 0 exMlt rfl, by decide, by decide,
    by decide, by decide⟩

end MajorityVote

section BuzzerRace

/-- C5: the buzz race resolves by earliest recorded timestamp with strict
less-than — against a recorded buzz, a candidate wins iff its timestamp is
strictly smaller, and an equal timestamp keeps the recorded entry — and for
two buzz admissions through `submit` with timestamps `t1 < t2` (timestamps
are drawn under the lock, in admission order) the recorded winner is the
first submitter with timestamp `t1`. -/
theorem buzz_winner_earliest_timestamp
    (pid pid2 : String) (ts ts2 : ℤ) (hne : pid2 ≠ pid)
    (oracles : TextOracles) (s : State) (p1 p2 : String) (t1 t2 : ℤ)
    (form1 form2 : Form)
    (hmode : s.mode = "trivia_buzzer") (hphase : s.phase = "in_round")
    (hp1 : p1 ≠ "") (hp2 : p2 ≠ "")
    (hm1 : (s.players.lookup p1).isSome = true)
    (hm2 : (s.players.lookup p2).isSome = true)
    (hlock : s.submissions_locked = false)
    (hrid1 : form1.round_id.getD (-1) = s.round_id)
    (hrid2 : form2.round_id.getD (-1) = s.round_id)
    (hbz1 : form1.buzz = some "1")
    (htb : s.trivia_buzzer_phase = some "buzz")
    (hnw : s.buzz_winner_pid = none)
    (ht : t1 < t2) :
    (select_buzz_winner (some pid) (some ts) pid2 ts2 = (pid2, ts2) ↔ ts2 < ts) ∧
    select_buzz_winner (some pid) (some ts) pid2 ts = (pid, ts) ∧
    (submit oracles t2 p2 form2
      (submit oracles t1 p1 form1 s).2).2.buzz_winner_pid = some p1 ∧
    (submit oracles t2 p2 form2
      (submit oracles t1 p1 form1 s).2).2.buzz_ts = some t1 := by
  obtain ⟨nm1, hnm1⟩ := Option.isSome_iff_exists.mp hm1
  obtain ⟨nm2, hnm2⟩ := Option.isSome_iff_exists.mp hm2
  have h1 : submit oracles t1 p1 form1 s =
      (.ok, { s with buzz_winner_pid := some p1, buzz_ts := some t1 }) := by
    simp [submit, submit_buzzer, select_buzz_winner, optStrTruthy, hnm1,
      hphase, hrid1, hlock, htb, hnw, hmode, hbz1, hp1]
  have h2 : submit oracles t2 p2 form2
      { s with buzz_winner_pid := some p1, buzz_ts := some t1 } =
      (.reject "Buzz already locked.",
       { s with buzz_winner_pid := some p1, buzz_ts := some t1 }) := by
    simp [submit, submit_buzzer, optStrTruthy, hnm2, hphase, hrid2, hlock,
      htb, hmode, hp1, hp2]
  refine ⟨?_, ?_, ?_, ?_⟩
  · constructor
    · intro h
      by_contra hlt
      simp only [select_buzz_winner] at h
      rw [if_neg hlt] at h
      exact hne ((Prod.mk.injEq _ _ _ _).mp h).1.symm
    · intro h
      simp only [select_buzz_winner]
      rw [if_pos h]
  · simp only [select_buzz_winner]
    rw [if_neg (lt_irrefl ts)]
  · rw [h1, h2]
  · rw [h1, h2]

/-- Witness for C5: on a concrete session, after buzz admissions at
timestamps 10 < 11 the recorded winner is the first submitter with
timestamp 10. -/
theorem buzz_winner_earliest_timestamp_witness :
    (("b" : String) ≠ "a" ∧ ("p1" : String) ≠ "" ∧ ((10 : ℤ) < 11)) ∧
    ((select_buzz_winner (some "a") (some 5) "b" 3 = ("b", 3) ↔ (3 : ℤ) < 5) ∧
     select_buzz_winner (some "a") (some 5) "b" 5 = ("a", 5) ∧
     (submit ⟨fun _ _ => false, fun _ => (some true, none)⟩ 11 "p2" exBuzzForm
       (submit ⟨fun _ _ => false, fun _ => (some true, none)⟩ 10 "p1"
         exBuzzForm exBuzz).2).2.buzz_winner_pid = some "p1" ∧
     (submit ⟨fun _ _ => false, fun _ => (some true, none)⟩ 11 "p2" exBuzzForm
       (submit ⟨fun _ _ => false, fun _ => (some true, none)⟩ 10 "p1"
         exBuzzForm exBuzz).2).2.buzz_ts = some 10) :=
  ⟨⟨by decide, by decide, by norm_num⟩,
   buzz_winner_earliest_timestamp "a" "b" 5 3 (by decide) _ exBuzz "p1" "p2"
     10 11 exBuzzForm exBuzzForm rfl rfl (by decide) (by decide) (by decide)
     (by decide) rfl (by decide) (by decide) rfl rfl rfl (by norm_num)⟩

end BuzzerRace

section BuzzerScoring

/-- C6: in buzzer-race scoring with a correct index and a buzz winner
present — a recorded answer equal to the correct index awards exactly +2 to
the answerer, and in the team variant the scoring pids are exactly the
members of the answering team; an incorrect or absent answer awards exactly
+1 to the first steal attempt matching the correct index in admission
(map-insertion) order when one exists, and otherwise nobody scores; and
applying the deltas changes exactly the scoring pids' scores by the awarded
points. -/
theorem buzzer_outcome_scoring
    (ci : ℤ) (bp ap : String) (steals : List (String × ℤ))
    (teams : List (String × ℤ)) (scores : List (String × ℤ)) (tid : ℤ)
    (hbp : bp ≠ "") (hap : ap ≠ "")
    (hnodup : (teams.map Prod.fst).Nodup) :
    ((compute_trivia_buzzer_outcome (some ci) (some bp) (some ap) (some ci)
        steals).points = 2 ∧
     (compute_trivia_buzzer_outcome (some ci) (some bp) (some ap) (some ci)
        steals).scoring_pid = some ap ∧
     buzzerScoringPids "trivia_buzzer" teams (some ap) = ([ap], none)) ∧
    (teams.lookup ap = some tid →
      (buzzerScoringPids "team_trivia" teams (some ap)).1 =
        (teams.filter (fun kv => kv.2 = tid)).map Prod.fst ∧
      ((teams.filter (fun kv => kv.2 = tid)).map Prod.fst).Nodup) ∧
    (∀ ac : Option ℤ, (ac = none ∨ ∃ c, ac = some c ∧ c ≠ ci) →
      (pick_first_correct_steal steals (some ci) =
        (steals.find? (fun kv => kv.2 = ci)).map Prod.fst) ∧
      (∀ sp, pick_first_correct_steal steals (some ci) = some sp → sp ≠ "" →
        (compute_trivia_buzzer_outcome (some ci) (some bp) (some ap) ac
            steals).scoring_pid = some sp ∧
        (compute_trivia_buzzer_outcome (some ci) (some bp) (some ap) ac
            steals).points = 1) ∧
      (pick_first_correct_steal steals (some ci) = none →
        (compute_trivia_buzzer_outcome (some ci) (some bp) (some ap) ac
            steals).scoring_pid = none ∧
        (compute_trivia_buzzer_outcome (some ci) (some bp) (some ap) ac
            steals).points = 0 ∧
        buzzerScoringPids "trivia_buzzer" teams none = ([], none))) ∧
    (∀ (pids : List String) (pts : ℤ), pids.Nodup →
      (∀ q ∈ pids,
        (pids.foldl (fun sc pid => scoreAdd sc pid pts) scores).lookup q =
          some ((scores.lookup q).getD 0 + pts)) ∧
      (∀ q, q ∉ pids →
        (pids.foldl (fun sc pid => scoreAdd sc pid pts) scores).lookup q =
          scores.lookup q)) := by
  refine ⟨?_, ?_, ?_, ?_⟩
  · refine ⟨?_, ?_, ?_⟩
    · simp [compute_trivia_buzzer_outcome, optStrTruthy, pyOrStr, hbp, hap]
    · simp [compute_trivia_buzzer_outcome, optStrTruthy, pyOrStr, hbp, hap]
    · simp [buzzerScoringPids, hap]
  · intro h
    constructor
    · simp [buzzerScoringPids, hap, h]
    · exact nodup_fst_filter_map _ _ hnodup
  · intro ac hac
    refine ⟨rfl, ?_, ?_⟩
    · intro sp hsp hspne
      rcases hac with hnone | ⟨c, hc, hcne⟩
      · subst hnone
        constructor <;>
          simp [compute_trivia_buzzer_outcome, optStrTruthy, hbp, hsp, hspne]
      · subst hc
        constructor <;>
          simp [compute_trivia_buzzer_outcome, optStrTruthy, hbp, hsp, hspne,
            hcne]
    · intro hnone2
      rcases hac with hnone | ⟨c, hc, hcne⟩
      · subst hnone
        refine ⟨?_, ?_, ?_⟩ <;>
          simp [compute_trivia_buzzer_outcome, buzzerScoringPids, optStrTruthy,
            hbp, hnone2]
      · subst hc
        refine ⟨?_, ?_, ?_⟩ <;>
          simp [compute_trivia_buzzer_outcome, buzzerScoringPids, optStrTruthy,
            hbp, hnone2, hcne]
  · intro pids pts hnd
    exact ⟨fun q hq => foldl_scoreAdd_mem pts pids scores q hnd hq,
           fun q hq => foldl_scoreAdd_not_mem pts pids scores q hq⟩

/-- Witness for C6 at a concrete round: correct index 1, buzz winner `b`,
answerer `a` on team 7 with teammate `c`; steal attempts in admission order
x:0, y:1, z:1, so the first correct steal is `y`. -/
theorem buzzer_outcome_scoring_witness :
    (("b" : String) ≠ "" ∧ ("a" : String) ≠ "") ∧
    (((compute_trivia_buzzer_outcome (some 1) (some "b") (some "a") (some 1)
        [("x", 0), ("y", 1), ("z", 1)]).points = 2 ∧
      (compute_trivia_buzzer_outcome (some 1) (some "b") (some "a") (some 1)
        [("x", 0), ("y", 1), ("z", 1)]).scoring_pid = some "a" ∧
      buzzerScoringPids "trivia_buzzer" [("a", 7), ("b", 8), ("c", 7)]
        (some "a") = (["a"], none))) ∧
    (buzzerScoringPids "team_trivia" [("a", 7), ("b", 8), ("c", 7)]
      (some "a")).1 = ["a", "c"] ∧
    (compute_trivia_buzzer_outcome (some 1) (some "b") (some "a") none
      [("x", 0), ("y", 1), ("z", 1)]).scoring_pid = some "y" ∧
    (compute_trivia_buzzer_outcome (some 1) (some "b") (some "a") (some 0)
      [("x", 0), ("y", 1), ("z", 1)]).points = 1 ∧
    (compute_trivia_buzzer_outcome (some 1) (some "b") (some "a") none
      []).points = 0 :=
  ⟨⟨by decide, by decide⟩,
   (buzzer_outcome_scoring 1 "b" "a" [("x", 0), ("y", 1), ("z", 1)]
     [("a", 7), ("b", 8), ("c", 7)] [] 7 (by decide) (by decide)
     (by decide)).1,
   by decide, by decide, by decide, by decide⟩

end BuzzerScoring

section MafiaTick

/-- C10: in mafia mode, `tick_timer_locked` never performs a sub-phase
transition, an elimination, or a result computation — the state after any
tick is unchanged, or changed only by setting the expired flag, or by
setting the expired flag and locking submissions. -/
theorem tick_mafia_expiry_only (now : ℤ) (s : State) (h : s.mode = "mafia") :
    (tick_timer_locked now s).2 = s ∨
    (tick_timer_locked now s).2 = { s with timer_expired := true } ∨
    (tick_timer_locked now s).2 =
      { s with timer_expired := true, submissions_locked := true } := by
  rcases hrem : get_timer_remaining now s with _ | r
  · left
    simp [tick_timer_locked, hrem]
  · by_cases hr : 0 < r
    · left
      simp [tick_timer_locked, hrem, hr]
    · cases hexp : s.timer_expired with
      | true =>
          left
          simp [tick_timer_locked, hrem, hr, hexp]
      | false =>
          by_cases hpol : s.late_submit_policy = "lock_after_timer"
          · right; right
            cases hauto : s.auto_advance with
            | false => simp [tick_timer_locked, tick_auto_advance, hrem, hr, hexp, hpol, hauto]
            | true =>
                by_cases hph : s.phase = "in_round"
                · simp [tick_timer_locked, tick_auto_advance, hrem, hr, hexp, hpol, hauto, hph, h]
                · simp [tick_timer_locked, tick_auto_advance, hrem, hr, hexp, hpol, hauto, hph]
          · right; left
            cases hauto : s.auto_advance with
            | false => simp [tick_timer_locked, tick_auto_advance, hrem, hr, hexp, hpol, hauto]
            | true =>
                by_cases hph : s.phase = "in_round"
                · simp [tick_timer_locked, tick_auto_advance, hrem, hr, hexp, hpol, hauto, hph, h]
                · simp [tick_timer_locked, tick_auto_advance, hrem, hr, hexp, hpol, hauto, hph]

/-- Witness for C10: ticking an expired mafia-night timer locks submissions
and sets the expired flag but leaves the night sub-phase, the alive list and
the results untouched. -/
theorem tick_mafia_expiry_only_witness :
    exMafiaTick.mode = "mafia" ∧
    ((tick_timer_locked 100 exMafiaTick).2 = exMafiaTick ∨
     (tick_timer_locked 100 exMafiaTick).2 =
       { exMafiaTick with timer_expired := true } ∨
     (tick_timer_locked 100 exMafiaTick).2 =
       { exMafiaTick with timer_expired := true,
                          submissions_locked := true }) ∧
    (tick_timer_locked 100 exMafiaTick).1 = some 0 ∧
    (tick_timer_locked 100 exMafiaTick).2.mafia_phase = some "night" ∧
    (tick_timer_locked 100 exMafiaTick).2.mafia_alive = ["a", "b", "c"] ∧
    (tick_timer_locked 100 exMafiaTick).2.last_result = none ∧
    (tick_timer_locked 100 exMafiaTick).2.submissions_locked = true ∧
    (tick_timer_locked 100 exMafiaTick).2.timer_expired = true :=
  ⟨rfl, tick_mafia_expiry_only 100 exMafiaTick rfl, by decide, by decide,
    by decide, by decide, by decide, by decide⟩

end MafiaTick

section TimerNoDoubleFire

lemma compute_results_timer_expired (now : ℤ) (u : State) :
    (compute_results_locked now u).timer_expired = u.timer_expired := by
  obtain ⟨sc, tb, lr, hi, heq⟩ := compute_results_skeleton now u
  rw [heq]

lemma compute_results_timer_enabled (now : ℤ) (u : State) :
    (compute_results_locked now u).timer_enabled = u.timer_enabled := by
  obtain ⟨sc, tb, lr, hi, heq⟩ := compute_results_skeleton now u
  rw [heq]

lemma compute_results_timer_start_ts (now : ℤ) (u : State) :
    (compute_results_locked now u).timer_start_ts = u.timer_start_ts := by
  obtain ⟨sc, tb, lr, hi, heq⟩ := compute_results_skeleton now u
  rw [heq]

lemma compute_results_timer_duration (now : ℤ) (u : State) :
    (compute_results_locked now u).timer_duration = u.timer_duration := by
  obtain ⟨sc, tb, lr, hi, heq⟩ := compute_results_skeleton now u
  rw [heq]

lemma remaining_some_inv (now : ℤ) (s : State) (r : ℤ)
    (h : get_timer_remaining now s = some r) :
    s.timer_enabled = true ∧ ∃ t d, s.timer_start_ts = some t ∧
      s.timer_duration = some d ∧ r = max 0 (d - (now - t)) := by
  unfold get_timer_remaining at h
  cases hen : s.timer_enabled with
  | false => rw [hen] at h; simp at h
  | true =>
      rw [hen] at h
      simp only [Bool.not_true] at h
      refine ⟨rfl, ?_⟩
      rcases hst : s.timer_start_ts with _ | t
      · rw [hst] at h; simp at h
      · rcases hdur : s.timer_duration with _ | d
        · rw [hst, hdur] at h; simp at h
        · rw [hst, hdur] at h
          simp only [if_false] at h
          by_cases h0 : t = 0 ∨ d = 0
          · rw [if_pos h0] at h; cases h
          · rw [if_neg h0] at h
            exact ⟨t, d, rfl, rfl, (Option.some.inj h).symm⟩

lemma get_timer_remaining_congr (now : ℤ) (s u : State)
    (he : u.timer_enabled = s.timer_enabled)
    (hs : u.timer_start_ts = s.timer_start_ts)
    (hd : u.timer_duration = s.timer_duration) :
    get_timer_remaining now u = get_timer_remaining now s := by
  unfold get_timer_remaining
  rw [he, hs, hd]

lemma remaining_eq_of_fields (now t d : ℤ) (s : State)
    (hen : s.timer_enabled = true) (hst : s.timer_start_ts = some t)
    (hdur : s.timer_duration = some d) :
    get_timer_remaining now s =
      if t = 0 ∨ d = 0 then none else some (max 0 (d - (now - t))) := by
  unfold get_timer_remaining
  rw [hen, hst, hdur]
  simp

lemma remaining_zero_mono (s : State) (now₁ now₂ : ℤ) (h12 : now₁ ≤ now₂)
    (h0 : get_timer_remaining now₁ s = some 0) :
    get_timer_remaining now₂ s = some 0 := by
  obtain ⟨hen, t, d, hst, hdur, hr⟩ := remaining_some_inv now₁ s 0 h0
  have key₁ := remaining_eq_of_fields now₁ t d s hen hst hdur
  have key₂ := remaining_eq_of_fields now₂ t d s hen hst hdur
  by_cases h0' : t = 0 ∨ d = 0
  · rw [key₁, if_pos h0'] at h0
    cases h0
  · rw [key₂, if_neg h0']
    have h1 : d - (now₁ - t) ≤ 0 := max_eq_left_iff.mp hr.symm
    have h3 : d - (now₂ - t) ≤ 0 := by omega
    rw [max_eq_left h3]

lemma tick_zero_expired (now : ℤ) (u : State)
    (hrem : get_timer_remaining now u = some 0)
    (hexp : u.timer_expired = true) :
    tick_timer_locked now u = (some 0, u) := by
  simp only [tick_timer_locked, hrem]
  rw [if_neg (lt_irrefl 0), if_pos hexp]

lemma tick_expired_state_id (t : ℤ) (u : State)
    (hexp : u.timer_expired = true) : (tick_timer_locked t u).2 = u := by
  rcases hrem : get_timer_remaining t u with _ | r
  · simp only [tick_timer_locked, hrem]
  · by_cases hr : 0 < r
    · simp only [tick_timer_locked, hrem]
      rw [if_pos hr]
    · simp only [tick_timer_locked, hrem]
      rw [if_neg hr, if_pos hexp]

lemma tick_auto_advance_fields (now : ℤ) (u : State)
    (hen : u.timer_enabled = true) :
    ((tick_auto_advance now u).2.timer_expired = u.timer_expired ∧
     (tick_auto_advance now u).2.timer_enabled = u.timer_enabled ∧
     (tick_auto_advance now u).2.timer_start_ts = u.timer_start_ts ∧
     (tick_auto_advance now u).2.timer_duration = u.timer_duration) ∨
    ((tick_auto_advance now u).2.timer_expired = false ∧
     (tick_auto_advance now u).2.timer_start_ts = some now ∧
     ∃ d, (tick_auto_advance now u).2.timer_duration = some d ∧ 1 ≤ d) := by
  have hreset : ∀ (sec : Option ℤ) (w : State), w.timer_enabled = true →
      (reset_timer_locked now sec w).timer_expired = false ∧
      (reset_timer_locked now sec w).timer_start_ts = some now ∧
      ∃ d, (reset_timer_locked now sec w).timer_duration = some d ∧ 1 ≤ d := by
    intro sec w henw
    unfold reset_timer_locked
    rw [if_neg (by simp [henw])]
    exact ⟨rfl, rfl, _, rfl, le_max_left _ _⟩
  cases hauto : u.auto_advance with
  | false => left; simp [tick_auto_advance, hauto]
  | true =>
      by_cases hph : u.phase = "in_round"
      case neg => left; simp [tick_auto_advance, hauto, hph]
      case pos =>
      by_cases hm1 : u.mode = "votebattle"
      · by_cases hvp : u.votebattle_phase = some "submit"
        · by_cases hve : u.votebattle_entries = []
          · left; simp [tick_auto_advance, hauto, hph, hm1, hvp, hve]
          · right
            refine ⟨?_, ?_, ?_⟩
            · simp only [tick_auto_advance]
              simp [hauto, hph, hm1, hvp, hve]
              exact (hreset _ _ (by exact hen)).1
            · simp only [tick_auto_advance]
              simp [hauto, hph, hm1, hvp, hve]
              exact (hreset _ _ (by exact hen)).2.1
            · simp only [tick_auto_advance]
              simp [hauto, hph, hm1, hvp, hve]
              exact (hreset _ _ (by exact hen)).2.2
        · by_cases hvv : u.votebattle_phase = some "vote"
          · left
            refine ⟨?_, ?_, ?_, ?_⟩ <;>
              simp [tick_auto_advance, hauto, hph, hm1, hvp, hvv,
                compute_results_timer_expired, compute_results_timer_enabled,
                compute_results_timer_start_ts, compute_results_timer_duration]
          · left; simp [tick_auto_advance, hauto, hph, hm1, hvp, hvv]
      · by_cases hm2 : u.mode = "spyfall"
        · by_cases hsp : u.spyfall_phase = some "question"
          · cases hsauto : u.spyfall_auto_start_vote_on_timer with
            | false =>
                left
                simp [tick_auto_advance, hauto, hph, hm1, hm2, hsp, hsauto]
            | true =>
                by_cases hpl : u.players = []
                · left
                  simp [tick_auto_advance, hauto, hph, hm1, hm2, hsp, hsauto,
                    hpl]
                · right
                  refine ⟨?_, ?_, ?_⟩
                  · simp only [tick_auto_advance]
                    simp [hauto, hph, hm1, hm2, hsp, hsauto, hpl]
                    exact (hreset _ _ (by exact hen)).1
                  · simp only [tick_auto_advance]
                    simp [hauto, hph, hm1, hm2, hsp, hsauto, hpl]
                    exact (hreset _ _ (by exact hen)).2.1
                  · simp only [tick_auto_advance]
                    simp [hauto, hph, hm1, hm2, hsp, hsauto, hpl]
                    exact (hreset _ _ (by exact hen)).2.2
          · by_cases hsv : u.spyfall_phase = some "vote"
            · left
              refine ⟨?_, ?_, ?_, ?_⟩ <;>
                simp [tick_auto_advance, hauto, hph, hm1, hm2, hsp, hsv,
                  compute_results_timer_expired, compute_results_timer_enabled,
                  compute_results_timer_start_ts, compute_results_timer_duration]
            · left; simp [tick_auto_advance, hauto, hph, hm1, hm2, hsp, hsv]
        · by_cases hm3 : u.mode = "trivia_buzzer" ∨ u.mode = "team_trivia"
          · by_cases htp : u.trivia_buzzer_phase = some "buzz"
            · cases hbw : optStrTruthy u.buzz_winner_pid with
              | true =>
                  right
                  refine ⟨?_, ?_, ?_⟩
                  · simp only [tick_auto_advance]
                    simp [hauto, hph, hm1, hm2, hm3, htp, hbw]
                    exact (hreset _ _ (by exact hen)).1
                  · simp only [tick_auto_advance]
                    simp [hauto, hph, hm1, hm2, hm3, htp, hbw]
                    exact (hreset _ _ (by exact hen)).2.1
                  · simp only [tick_auto_advance]
                    simp [hauto, hph, hm1, hm2, hm3, htp, hbw]
                    exact (hreset _ _ (by exact hen)).2.2
              | false =>
                  left
                  refine ⟨?_, ?_, ?_, ?_⟩ <;>
                    simp [tick_auto_advance, hauto, hph, hm1, hm2, hm3, htp,
                      hbw, compute_results_timer_expired,
                      compute_results_timer_enabled,
                      compute_results_timer_start_ts,
                      compute_results_timer_duration]
            · by_cases hta : u.trivia_buzzer_phase = some "answer" ∨
                  u.trivia_buzzer_phase = some "steal"
              · left
                refine ⟨?_, ?_, ?_, ?_⟩ <;>
                  simp [tick_auto_advance, hauto, hph, hm1, hm2, hm3, htp, hta,
                    compute_results_timer_expired,
                    compute_results_timer_enabled,
                    compute_results_timer_start_ts,
                    compute_results_timer_duration]
              · left
                simp [tick_auto_advance, hauto, hph, hm1, hm2, hm3, htp, hta]
          · by_cases hm4 : u.mode = "mafia"
            · left
              simp [tick_auto_advance, hauto, hph, hm1, hm2, hm3, hm4]
            · left
              refine ⟨?_, ?_, ?_, ?_⟩ <;>
                simp [tick_auto_advance, hauto, hph, hm1, hm2, hm3, hm4,
                  compute_results_timer_expired, compute_results_timer_enabled,
                  compute_results_timer_start_ts,
                  compute_results_timer_duration]

/-- C1: once `tick_timer_locked` reports zero remaining and performs its
expiry work, an immediately following tick against the same deadline
returns 0 and performs no further transition (the state is unchanged);
moreover a tick of an already-expired timer is always a no-op, and arming a
new deadline via `reset_timer_locked` is what clears the expired flag. -/
theorem tick_no_double_fire (s s₁ : State) (now₁ now₂ : ℤ)
    (h : tick_timer_locked now₁ s = (some 0, s₁))
    (hs : s₁.timer_start_ts = s.timer_start_ts)
    (hd : s₁.timer_duration = s.timer_duration)
    (h12 : now₁ ≤ now₂) :
    s₁.timer_expired = true ∧
    tick_timer_locked now₂ s₁ = (some 0, s₁) ∧
    (∀ (t : ℤ) (u : State), u.timer_expired = true →
      (tick_timer_locked t u).2 = u) ∧
    (∀ (t : ℤ) (sec : Option ℤ) (u : State), u.timer_enabled = true →
      (reset_timer_locked t sec u).timer_expired = false ∧
      (reset_timer_locked t sec u).timer_start_ts = some t) := by
  have hgen4 : ∀ (t : ℤ) (sec : Option ℤ) (u : State), u.timer_enabled = true →
      (reset_timer_locked t sec u).timer_expired = false ∧
      (reset_timer_locked t sec u).timer_start_ts = some t := by
    intro t sec u hen
    constructor <;> simp [reset_timer_locked, hen]
  rcases hrem : get_timer_remaining now₁ s with _ | r
  · simp [tick_timer_locked, hrem] at h
  · obtain ⟨hen, t, d, hst, hdur, hr⟩ := remaining_some_inv now₁ s r hrem
    by_cases hpos : 0 < r
    · simp only [tick_timer_locked, hrem, if_pos hpos] at h
      have h1 : some r = some 0 := ((Prod.mk.injEq _ _ _ _).mp h).1
      exact absurd (Option.some.inj h1) (by omega)
    · have hr0 : r = 0 := by
        have := le_max_left 0 (d - (now₁ - t))
        omega
      subst hr0
      cases hexp : s.timer_expired with
      | true =>
          rw [tick_zero_expired now₁ s hrem hexp] at h
          have hs1 : s = s₁ := ((Prod.mk.injEq _ _ _ _).mp h).2
          subst hs1
          exact ⟨hexp, tick_zero_expired now₂ s
            (remaining_zero_mono s now₁ now₂ h12 hrem) hexp,
            tick_expired_state_id, hgen4⟩
      | false =>
          simp only [tick_timer_locked, hrem] at h
          rw [if_neg (lt_irrefl 0)] at h
          rw [if_neg (by simp [hexp])] at h
          have main : ∀ u : State, u.timer_enabled = true →
              u.timer_expired = true →
              u.timer_start_ts = s.timer_start_ts →
              u.timer_duration = s.timer_duration →
              tick_auto_advance now₁ u = (some 0, s₁) →
              s₁.timer_expired = true ∧
              tick_timer_locked now₂ s₁ = (some 0, s₁) := by
            intro u huen huexp hust hudur hh
            have hs1 : s₁ = (tick_auto_advance now₁ u).2 := by rw [hh]
            rcases tick_auto_advance_fields now₁ u huen with
              ⟨f1, f2, f3, f4⟩ | ⟨g1, g2, d2, g3, g4⟩
            · have hexp1 : s₁.timer_expired = true := by rw [hs1, f1, huexp]
              refine ⟨hexp1, ?_⟩
              have hc : get_timer_remaining now₂ s₁ =
                  get_timer_remaining now₂ s := by
                refine get_timer_remaining_congr now₂ s s₁ ?_ ?_ ?_
                · rw [hs1, f2, huen, hen]
                · rw [hs1, f3, hust]
                · rw [hs1, f4, hudur]
              have hrem2 : get_timer_remaining now₂ s₁ = some 0 := by
                rw [hc]
                exact remaining_zero_mono s now₁ now₂ h12 hrem
              exact tick_zero_expired now₂ s₁ hrem2 hexp1
            · exfalso
              have hstart : s.timer_start_ts = some now₁ := by
                rw [← hs, hs1, g2]
              have hdur2 : s.timer_duration = some d2 := by
                rw [← hd, hs1, g3]
              have ht' : t = now₁ := by
                rw [hst] at hstart
                exact Option.some.inj hstart
              have hd' : d = d2 := by
                rw [hdur] at hdur2
                exact Option.some.inj hdur2
              have hle : d - (now₁ - t) ≤ 0 := max_eq_left_iff.mp hr.symm
              omega
          by_cases hpol : s.late_submit_policy = "lock_after_timer"
          · rw [if_pos hpol] at h
            obtain ⟨hA, hB⟩ := main _ (by exact hen) (by exact rfl) (by exact rfl) (by exact rfl) h
            exact ⟨hA, hB, tick_expired_state_id, hgen4⟩
          · rw [if_neg hpol] at h
            obtain ⟨hA, hB⟩ := main _ (by exact hen) (by exact rfl) (by exact rfl) (by exact rfl) h
            exact ⟨hA, hB, tick_expired_state_id, hgen4⟩

/-- Witness for C1: the timer fires once at time 50; the immediately
following tick at time 60 against the same deadline reports 0 and leaves
the state untouched. -/
theorem tick_no_double_fire_witness :
    (tick_timer_locked 50 exTick = (some 0, exTickFired) ∧
     exTickFired.timer_start_ts = exTick.timer_start_ts ∧
     exTickFired.timer_duration = exTick.timer_duration ∧ (50 : ℤ) ≤ 60) ∧
    (exTickFired.timer_expired = true ∧
     tick_timer_locked 60 exTickFired = (some 0, exTickFired)) :=
  ⟨⟨by decide, rfl, rfl, by decide⟩,
   ⟨(tick_no_double_fire exTick exTickFired 50 60 (by decide) rfl rfl
       (by decide)).1,
    (tick_no_double_fire exTick exTickFired 50 60 (by decide) rfl rfl
       (by decide)).2.1⟩⟩

end TimerNoDoubleFire

section DuplicateRejected

lemma submit_spyfall_dup (pid : String) (form : Form) (s : State)
    (h : (s.submissions.lookup pid).isSome = true) :
    ∃ msg, submit_spyfall pid form s = (.reject msg, s) := by
  by_cases hphz : s.spyfall_phase ≠ some "vote"
  · simp only [submit_spyfall]
    rw [if_pos hphz]
    exact ⟨_, rfl⟩
  · simp only [submit_spyfall]
    rw [if_neg hphz, if_pos h]
    exact ⟨_, rfl⟩

lemma submit_mafia_dup (pid : String) (form : Form) (s : State)
    (h : (if s.mafia_phase = some "night" then
            if s.mafia_roles.lookup pid = some "werewolf" then
              (s.mafia_wolf_votes.lookup pid).isSome
            else if s.mafia_roles.lookup pid = some "seer" then
              (s.mafia_seer_results.lookup pid).isSome
            else false
          else if s.mafia_phase = some "day" then
            (s.mafia_day_votes.lookup pid).isSome
          else false) = true) :
    ∃ msg, submit_mafia pid form s = (.reject msg, s) := by
  by_cases halive : pid ∉ s.mafia_alive
  · simp only [submit_mafia]
    rw [if_pos halive]
    exact ⟨_, rfl⟩
  · simp only [submit_mafia]
    rw [if_neg halive]
    by_cases hnight : s.mafia_phase = some "night"
    · rw [if_pos hnight] at h
      rw [if_pos hnight]
      by_cases hwolf : s.mafia_roles.lookup pid = some "werewolf"
      · rw [if_pos hwolf] at h
        rw [if_pos hwolf, if_pos h]
        exact ⟨_, rfl⟩
      · rw [if_neg hwolf] at h
        rw [if_neg hwolf]
        by_cases hseer : s.mafia_roles.lookup pid = some "seer"
        · rw [if_pos hseer] at h
          rw [if_pos hseer, if_pos h]
          exact ⟨_, rfl⟩
        · rw [if_neg hseer] at h
          cases h
    · rw [if_neg hnight] at h
      rw [if_neg hnight]
      by_cases hday : s.mafia_phase = some "day"
      · rw [if_pos hday] at h
        rw [if_pos hday, if_pos h]
        exact ⟨_, rfl⟩
      · rw [if_neg hday] at h
        cases h

lemma submit_buzzer_dup (now : ℤ) (pid : String) (form : Form) (s : State)
    (h : (if s.trivia_buzzer_phase = some "buzz" then
            optStrTruthy s.buzz_winner_pid
          else if s.trivia_buzzer_phase = some "answer" then
            s.answer_choice.isSome
          else if s.trivia_buzzer_phase = some "steal" then
            (s.steal_attempts.lookup pid).isSome
          else false) = true) :
    ∃ msg, submit_buzzer now pid form s = (.reject msg, s) := by
  by_cases htb : s.trivia_buzzer_phase = some "buzz"
  · rw [if_pos htb] at h
    simp only [submit_buzzer]
    rw [if_pos htb, if_pos h]
    exact ⟨_, rfl⟩
  · rw [if_neg htb] at h
    by_cases hta : s.trivia_buzzer_phase = some "answer"
    · rw [if_pos hta] at h
      simp only [submit_buzzer]
      rw [if_neg htb, if_pos hta, if_pos h]
      exact ⟨_, rfl⟩
    · rw [if_neg hta] at h
      by_cases hts : s.trivia_buzzer_phase = some "steal"
      · rw [if_pos hts] at h
        simp only [submit_buzzer]
        rw [if_neg htb, if_neg hta, if_pos hts]
        split
        · exact ⟨_, rfl⟩
        · rw [if_pos h]
          exact ⟨_, rfl⟩
      · rw [if_neg hts] at h
        cases h

lemma submit_votebattle_dup (oracles : TextOracles) (pid : String)
    (form : Form) (s : State)
    (h : (if s.votebattle_phase = some "submit" then
            (s.votebattle_entries.lookup pid).isSome
          else if s.votebattle_phase = some "vote" then
            (s.votebattle_votes.lookup pid).isSome
          else false) = true) :
    ∃ msg, submit_votebattle oracles pid form s = (.reject msg, s) := by
  by_cases hvs : s.votebattle_phase = some "submit"
  · rw [if_pos hvs] at h
    simp only [submit_votebattle]
    rw [if_pos hvs, if_pos h]
    exact ⟨_, rfl⟩
  · rw [if_neg hvs] at h
    by_cases hvv : s.votebattle_phase = some "vote"
    · rw [if_pos hvv] at h
      simp only [submit_votebattle]
      rw [if_neg hvs, if_pos hvv, if_pos h]
      exact ⟨_, rfl⟩
    · rw [if_neg hvv] at h
      cases h

lemma submit_default_dup (oracles : TextOracles) (pid : String) (form : Form)
    (s : State) (h : (s.submissions.lookup pid).isSome = true) :
    ∃ msg, submit_default oracles pid form s = (.reject msg, s) := by
  simp only [submit_default]
  rw [if_pos h]
  exact ⟨_, rfl⟩

/-- C2: a second submission targeting a sub-phase of the current round
that already has a recorded entry — the same participant resubmitting, or,
for the single-slot buzz/answer records of the buzzer modes, any
resubmission once an entry is recorded, which covers a different member of
the recorded team — is rejected (never `ok`), and the session state —
previously recorded entries, tallies and scores included — is unchanged. -/
theorem submit_duplicate_rejected (oracles : TextOracles) (now : ℤ)
    (pid : String) (form : Form) (s : State)
    (h : hasRecordedEntry s pid = true) :
    (submit oracles now pid form s).2 = s ∧
    (submit oracles now pid form s).1 ≠ SubmitResult.ok := by
  simp only [submit]
  by_cases hp : pid = ""
  · rw [if_pos hp]
    exact ⟨rfl, by simp⟩
  · rw [if_neg hp]
    by_cases hmem : (s.players.lookup pid).isNone
    · rw [if_pos hmem]
      exact ⟨rfl, by simp⟩
    · rw [if_neg hmem]
      by_cases hph : s.phase ≠ "in_round"
      · rw [if_pos hph]
        exact ⟨rfl, by simp⟩
      · rw [if_neg hph]
        by_cases hrid : form.round_id.getD (-1) ≠ s.round_id
        · rw [if_pos hrid]
          exact ⟨rfl, by simp⟩
        · rw [if_neg hrid]
          by_cases hlock : s.submissions_locked = true
          · rw [if_pos hlock]
            exact ⟨rfl, by simp⟩
          · rw [if_neg hlock]
            unfold hasRecordedEntry at h
            by_cases hm1 : s.mode = "spyfall"
            · rw [if_pos hm1] at h
              rw [if_pos hm1]
              obtain ⟨msg, hm⟩ := submit_spyfall_dup pid form s h
              rw [hm]
              exact ⟨rfl, by simp⟩
            · rw [if_neg hm1] at h
              rw [if_neg hm1]
              by_cases hm2 : s.mode = "mafia"
              · rw [if_pos hm2] at h
                rw [if_pos hm2]
                obtain ⟨msg, hm⟩ := submit_mafia_dup pid form s h
                rw [hm]
                exact ⟨rfl, by simp⟩
              · rw [if_neg hm2] at h
                rw [if_neg hm2]
                by_cases hm3 : s.mode = "trivia_buzzer" ∨ s.mode = "team_trivia"
                · rw [if_pos hm3] at h
                  rw [if_pos hm3]
                  obtain ⟨msg, hm⟩ := submit_buzzer_dup now pid form s h
                  rw [hm]
                  exact ⟨rfl, by simp⟩
                · rw [if_neg hm3] at h
                  rw [if_neg hm3]
                  by_cases hm4 : s.mode = "votebattle"
                  · rw [if_pos hm4] at h
                    rw [if_pos hm4]
                    obtain ⟨msg, hm⟩ := submit_votebattle_dup oracles pid form s h
                    rw [hm]
                    exact ⟨rfl, by simp⟩
                  · rw [if_neg hm4] at h
                    rw [if_neg hm4]
                    obtain ⟨msg, hm⟩ := submit_default_dup oracles pid form s h
                    rw [hm]
                    exact ⟨rfl, by simp⟩

/-- Witness for C2 at both submitter scopes: `p1` votes a second time in
the same spyfall vote sub-phase, and `p2` — a different member of the team
whose answer is recorded — resubmits in the team-trivia answer sub-phase;
both duplicates are rejected and nothing changes. -/
theorem submit_duplicate_rejected_witness :
    (hasRecordedEntry exDup "p1" = true ∧
     ((submit ⟨fun _ _ => false, fun _ => (some true, none)⟩ 7 "p1"
         ⟨some 3, some "p3", none, none, none, none, "", none, "", none⟩
         exDup).2 = exDup ∧
      (submit ⟨fun _ _ => false, fun _ => (some true, none)⟩ 7 "p1"
         ⟨some 3, some "p3", none, none, none, none, "", none, "", none⟩
         exDup).1 ≠ SubmitResult.ok)) ∧
    (hasRecordedEntry exDupTeam "p2" = true ∧
     ((submit ⟨fun _ _ => false, fun _ => (some true, none)⟩ 7 "p2"
         ⟨some 3, none, none, none, none, some 1, "", none, "", none⟩
         exDupTeam).2 = exDupTeam ∧
      (submit ⟨fun _ _ => false, fun _ => (some true, none)⟩ 7 "p2"
         ⟨some 3, none, none, none, none, some 1, "", none, "", none⟩
         exDupTeam).1 ≠ SubmitResult.ok)) :=
  ⟨⟨by decide,
    submit_duplicate_rejected ⟨fun _ _ => false, fun _ => (some true, none)⟩ 7
      "p1" ⟨some 3, some "p3", none, none, none, none, "", none, "", none⟩
      exDup (by decide)⟩,
   ⟨by decide,
    submit_duplicate_rejected ⟨fun _ _ => false, fun _ => (some true, none)⟩ 7
      "p2" ⟨some 3, none, none, none, none, some 1, "", none, "", none⟩
      exDupTeam (by decide)⟩⟩

end DuplicateRejected

section StaleRound

/-- C3: while the phase is `in_round`, a submission from a known participant
carrying any `round_id` other than the current one is rejected with the
stale-round reason and the state is unchanged, whatever the payload. -/
theorem submit_stale_round (oracles : TextOracles) (now : ℤ) (pid : String)
    (form : Form) (s : State) (hp : pid ≠ "")
    (hmem : (s.players.lookup pid).isSome = true)
    (hph : s.phase = "in_round")
    (hrid : form.round_id.getD (-1) ≠ s.round_id) :
    submit oracles now pid form s = (.reject "Round has changed.", s) := by
  obtain ⟨nm, hnm⟩ := Option.isSome_iff_exists.mp hmem
  simp only [submit]
  rw [if_neg hp, hnm]
  rw [if_neg (by simp), if_neg (by simp [hph]), if_pos hrid]

/-- Witness for C3: a payload-valid spyfall vote carrying `round_id` 2 while
the session is on round 3 is rejected as stale and changes nothing. -/
theorem submit_stale_round_witness :
    (("p1" : String) ≠ "" ∧ (exDup.players.lookup "p1").isSome = true ∧
     exDup.phase = "in_round" ∧
     (Form.mk (some 2) (some "p3") none none none none "" none "" none
       ).round_id.getD (-1) ≠ exDup.round_id) ∧
    submit ⟨fun _ _ => false, fun _ => (some true, none)⟩ 7 "p1"
      ⟨some 2, some "p3", none, none, none, none, "", none, "", none⟩ exDup =
      (.reject "Round has changed.", exDup) :=
  ⟨⟨by decide, by decide, by decide, by decide⟩,
   submit_stale_round ⟨fun _ _ => false, fun _ => (some true, none)⟩ 7 "p1"
     ⟨some 2, some "p3", none, none, none, none, "", none, "", none⟩ exDup
     (by decide) (by decide) (by decide) (by decide)⟩

end StaleRound

section RejectUnchanged

lemma c4_of_reject_self (s : State) (msg : String) :
    C4Ok s (.reject msg, s) :=
  ⟨fun _ => rfl, fun hh => absurd rfl hh⟩

lemma c4_of_toIndex (s : State) : C4Ok s (.toIndex, s) :=
  ⟨fun _ => rfl, fun hh => absurd rfl hh⟩

lemma c4_of_ok (s t : State) (hm : t.host_message = s.host_message) :
    C4Ok s (.ok, t) :=
  ⟨fun h => absurd rfl h, fun hh => absurd hm hh⟩

lemma check_text_none_state (oracles : TextOracles) (text : String)
    (s s1 : State) (heq : check_text_allowed oracles text s = (none, s1)) :
    s1 = s := by
  unfold check_text_allowed at heq
  split_ifs at heq
  · cases heq
  · rcases hmod : oracles.moderate text with ⟨ob, oe⟩
    rw [hmod] at heq
    cases ob with
    | none => cases heq
    | some b =>
        cases b with
        | false => simp at heq
        | true =>
            simp at heq
            exact heq.symm
  · exact (((Prod.mk.injEq _ _ _ _).mp heq).2).symm

lemma check_text_some_cases (oracles : TextOracles) (text : String)
    (s : State) (err : String) (s1 : State)
    (heq : check_text_allowed oracles text s = (some err, s1)) :
    s1 = s ∨ (err = "Moderation unavailable." ∧
      s1 = { s with host_message := s1.host_message }) := by
  unfold check_text_allowed at heq
  split_ifs at heq
  · obtain ⟨h1, h2⟩ := (Prod.mk.injEq _ _ _ _).mp heq
    exact Or.inl h2.symm
  · rcases hmod : oracles.moderate text with ⟨ob, oe⟩
    rw [hmod] at heq
    cases ob with
    | none =>
        obtain ⟨h1, h2⟩ := (Prod.mk.injEq _ _ _ _).mp heq
        refine Or.inr ⟨(Option.some.inj h1).symm, ?_⟩
        rw [← h2]
    | some b =>
        cases b with
        | false =>
            simp at heq
            exact Or.inl heq.2.symm
        | true => simp at heq
  · cases heq

lemma c4_text_reject (oracles : TextOracles) (text : String) (s : State)
    (err : String) (s1 : State)
    (heq : check_text_allowed oracles text s = (some err, s1)) :
    C4Ok s (.reject err, s1) := by
  rcases check_text_some_cases oracles text s err s1 heq with h | ⟨he, hs1⟩
  · subst h
    exact c4_of_reject_self _ _
  · subst he
    exact ⟨fun _ => hs1, fun _ => rfl⟩

lemma submit_spyfall_c4 (pid : String) (form : Form) (s : State) :
    C4Ok s (submit_spyfall pid form s) := by
  unfold submit_spyfall
  repeat' split
  all_goals first
    | exact c4_of_reject_self _ _
    | exact c4_of_ok _ _ rfl

lemma submit_mafia_c4 (pid : String) (form : Form) (s : State) :
    C4Ok s (submit_mafia pid form s) := by
  simp only [submit_mafia]
  repeat' split
  all_goals first
    | exact c4_of_reject_self _ _
    | exact c4_of_ok _ _ rfl

lemma submit_buzzer_c4 (now : ℤ) (pid : String) (form : Form) (s : State) :
    C4Ok s (submit_buzzer now pid form s) := by
  simp only [submit_buzzer]
  repeat' split
  all_goals first
    | exact c4_of_reject_self _ _
    | exact c4_of_ok _ _ rfl

lemma submit_votebattle_c4 (oracles : TextOracles) (pid : String)
    (form : Form) (s : State) :
    C4Ok s (submit_votebattle oracles pid form s) := by
  simp only [submit_votebattle]
  repeat' split
  all_goals first
    | exact c4_of_reject_self _ _
    | exact c4_of_ok _ _ rfl
    | (rename_i err s1 heq
       exact c4_text_reject _ _ _ err s1 heq)
    | (rename_i s1 heq
       have h0 := check_text_none_state _ _ _ _ heq
       subst h0
       exact c4_of_ok _ _ rfl)

lemma submit_default_c4 (oracles : TextOracles) (pid : String) (form : Form)
    (s : State) :
    C4Ok s (submit_default oracles pid form s) := by
  simp only [submit_default]
  repeat' split
  all_goals first
    | exact c4_of_reject_self _ _
    | exact c4_of_ok _ _ rfl
    | (rename_i err s1 heq
       exact c4_text_reject _ _ _ err s1 heq)
    | (rename_i s1 heq
       have h0 := check_text_none_state _ _ _ _ heq
       subst h0
       exact c4_of_ok _ _ rfl)

/-- C4 (amended): every rejected admission leaves every field of the
session aggregate unchanged except possibly the host-facing message field,
and that field is written on a rejection only by the content-policy
moderation-unavailable path; submission maps, scores, phases and locks are
never written on any rejection path. -/
theorem submit_reject_state_unchanged (oracles : TextOracles) (now : ℤ)
    (pid : String) (form : Form) (s : State) :
    C4Ok s (submit oracles now pid form s) := by
  simp only [submit]
  repeat' split
  all_goals first
    | exact c4_of_toIndex _
    | exact c4_of_reject_self _ _
    | exact submit_spyfall_c4 _ _ _
    | exact submit_mafia_c4 _ _ _
    | exact submit_buzzer_c4 _ _ _ _
    | exact submit_votebattle_c4 _ _ _ _
    | exact submit_default_c4 _ _ _ _

set_option maxRecDepth 20000 in
/-- Counterexample to C4 as stated: with moderation unavailable, a rejected
hotseat submission writes the host-facing message field, so the state is
not byte-for-byte unchanged. -/
theorem submit_reject_state_unchanged_cex :
    (submit ⟨fun _ _ => false, fun _ => (none, none)⟩ 0 "p1"
      ⟨some 1, none, none, none, none, none, "", none, "hello", none⟩
      exC4).1 ≠ SubmitResult.ok ∧
    (submit ⟨fun _ _ => false, fun _ => (none, none)⟩ 0 "p1"
      ⟨some 1, none, none, none, none, none, "", none, "hello", none⟩
      exC4).2 ≠ exC4 := by
  constructor <;> decide

/-- Witness for the amended C4 at the moderation-unavailable scenario. -/
theorem submit_reject_state_unchanged_witness :
    C4Ok exC4 (submit ⟨fun _ _ => false, fun _ => (none, none)⟩ 0 "p1"
      ⟨some 1, none, none, none, none, none, "", none, "hello", none⟩ exC4) :=
  submit_reject_state_unchanged ⟨fun _ _ => false, fun _ => (none, none)⟩ 0
    "p1" ⟨some 1, none, none, none, none, none, "", none, "hello", none⟩ exC4

end RejectUnchanged

section RoundIdLedger

lemma round_id_set_hm (t : State) (m : String) :
    ({ t with host_message := m } : State).round_id = t.round_id := rfl

lemma reset_timer_round_id (now : ℤ) (sec : Option ℤ) (s : State) :
    (reset_timer_locked now sec s).round_id = s.round_id := by
  unfold reset_timer_locked
  repeat' split
  all_goals rfl

lemma compute_results_round_id (now : ℤ) (s : State) :
    (compute_results_locked now s).round_id = s.round_id := by
  obtain ⟨sc, tb, lr, hi, heq⟩ := compute_results_skeleton now s
  rw [heq]

lemma assign_spyfall_round_id (rand : RoundRand) (pool : List String)
    (s : State) :
    (assign_spyfall_roles rand pool s).round_id = s.round_id := by
  simp only [assign_spyfall_roles]
  repeat' split
  all_goals rfl

lemma tick_round_id (now : ℤ) (s : State) :
    (tick_timer_locked now s).2.round_id = s.round_id := by
  have key : ∀ u : State, u.round_id = s.round_id →
      (tick_auto_advance now u).2.round_id = s.round_id := by
    intro u hu
    cases hauto : u.auto_advance with
    | false => simp [tick_auto_advance, hauto, hu]
    | true =>
      by_cases hph : u.phase = "in_round"
      case neg => simp [tick_auto_advance, hauto, hph, hu]
      case pos =>
      by_cases hm1 : u.mode = "votebattle"
      · by_cases hvp : u.votebattle_phase = some "submit"
        · by_cases hve : u.votebattle_entries = []
          · simp [tick_auto_advance, hauto, hph, hm1, hvp, hve, hu]
          · simp [tick_auto_advance, hauto, hph, hm1, hvp, hve,
              reset_timer_round_id, hu]
        · by_cases hvp2 : u.votebattle_phase = some "vote"
          · simp [tick_auto_advance, hauto, hph, hm1, hvp, hvp2,
              compute_results_round_id, hu]
          · simp [tick_auto_advance, hauto, hph, hm1, hvp, hvp2, hu]
      · by_cases hm2 : u.mode = "spyfall"
        · by_cases hsp : u.spyfall_phase = some "question"
          · by_cases hsa : u.spyfall_auto_start_vote_on_timer = true
            · by_cases hpl : u.players = []
              · simp [tick_auto_advance, hauto, hph, hm1, hm2, hsp, hsa,
                  hpl, hu]
              · simp [tick_auto_advance, hauto, hph, hm1, hm2, hsp, hsa,
                  hpl, reset_timer_round_id, hu]
            · simp [tick_auto_advance, hauto, hph, hm1, hm2, hsp, hsa, hu]
          · by_cases hsp2 : u.spyfall_phase = some "vote"
            · simp [tick_auto_advance, hauto, hph, hm1, hm2, hsp, hsp2,
                compute_results_round_id, hu]
            · simp [tick_auto_advance, hauto, hph, hm1, hm2, hsp, hsp2, hu]
        · by_cases hm3 : u.mode = "trivia_buzzer" ∨ u.mode = "team_trivia"
          · by_cases htb : u.trivia_buzzer_phase = some "buzz"
            · by_cases hbw : optStrTruthy u.buzz_winner_pid = true
              · simp [tick_auto_advance, hauto, hph, hm1, hm2, hm3, htb,
                  hbw, reset_timer_round_id, hu]
              · simp [tick_auto_advance, hauto, hph, hm1, hm2, hm3, htb,
                  hbw, compute_results_round_id, hu]
            · by_cases htb2 : u.trivia_buzzer_phase = some "answer" ∨
                  u.trivia_buzzer_phase = some "steal"
              · simp [tick_auto_advance, hauto, hph, hm1, hm2, hm3, htb,
                  htb2, compute_results_round_id, hu]
              · simp [tick_auto_advance, hauto, hph, hm1, hm2, hm3, htb,
                  htb2, hu]
          · by_cases hm4 : u.mode = "mafia"
            · simp [tick_auto_advance, hauto, hph, hm1, hm2, hm3, hm4, hu]
            · simp [tick_auto_advance, hauto, hph, hm1, hm2, hm3, hm4,
                compute_results_round_id, hu]
  rcases hrem : get_timer_remaining now s with _ | r
  · simp only [tick_timer_locked, hrem]
  · simp only [tick_timer_locked, hrem]
    by_cases hr : 0 < r
    · rw [if_pos hr]
    · rw [if_neg hr]
      by_cases hexp : s.timer_expired = true
      · rw [if_pos hexp]
      · rw [if_neg hexp]
        apply key
        split <;> rfl

lemma submit_spyfall_round_id (pid : String) (form : Form) (s : State) :
    (submit_spyfall pid form s).2.round_id = s.round_id := by
  unfold submit_spyfall
  repeat' split
  all_goals rfl

lemma submit_mafia_round_id (pid : String) (form : Form) (s : State) :
    (submit_mafia pid form s).2.round_id = s.round_id := by
  simp only [submit_mafia]
  repeat' split
  all_goals rfl

lemma submit_buzzer_round_id (now : ℤ) (pid : String) (form : Form)
    (s : State) :
    (submit_buzzer now pid form s).2.round_id = s.round_id := by
  simp only [submit_buzzer]
  repeat' split
  all_goals rfl

lemma submit_votebattle_round_id (oracles : TextOracles) (pid : String)
    (form : Form) (s : State) :
    (submit_votebattle oracles pid form s).2.round_id = s.round_id := by
  simp only [submit_votebattle]
  repeat' split
  all_goals first
    | rfl
    | (rename_i err s1 heq
       rcases check_text_some_cases _ _ _ _ _ heq with h | ⟨he, hs1⟩
       · rw [h]
       · rw [hs1])
    | (rename_i s1 heq
       have h0 := check_text_none_state _ _ _ _ heq
       subst h0
       rfl)

lemma submit_default_round_id (oracles : TextOracles) (pid : String)
    (form : Form) (s : State) :
    (submit_default oracles pid form s).2.round_id = s.round_id := by
  simp only [submit_default]
  repeat' split
  all_goals first
    | rfl
    | (rename_i err s1 heq
       rcases check_text_some_cases _ _ _ _ _ heq with h | ⟨he, hs1⟩
       · rw [h]
       · rw [hs1])
    | (rename_i s1 heq
       have h0 := check_text_none_state _ _ _ _ heq
       subst h0
       rfl)

lemma submit_round_id (oracles : TextOracles) (now : ℤ) (pid : String)
    (form : Form) (s : State) :
    (submit oracles now pid form s).2.round_id = s.round_id := by
  simp only [submit]
  repeat' split
  all_goals first
    | rfl
    | exact submit_spyfall_round_id _ _ _
    | exact submit_mafia_round_id _ _ _
    | exact submit_buzzer_round_id _ _ _ _
    | exact submit_votebattle_round_id _ _ _ _
    | exact submit_default_round_id _ _ _ _

lemma mafia_start_day_round_id (k : ℕ) (now : ℤ) (s : State) :
    (mafia_start_day k now s).round_id = s.round_id := by
  simp only [mafia_start_day]
  repeat' split
  all_goals first
    | rfl
    | simp [reset_timer_round_id, compute_results_round_id]

lemma mafia_resolve_day_round_id (k : ℕ) (now : ℤ) (s : State) :
    (mafia_resolve_day k now s).round_id = s.round_id := by
  simp only [mafia_resolve_day]
  repeat' split
  all_goals first
    | rfl
    | simp [reset_timer_round_id, compute_results_round_id]

lemma start_round_mode_init_round_id (rand : RoundRand)
    (resolved : ResolvedPrompt) (now : ℤ) (mode prompt : String)
    (t : State) :
    (start_round_mode_init rand resolved now mode prompt t).round_id =
      t.round_id := by
  simp only [start_round_mode_init]
  repeat' split
  all_goals simp [reset_timer_round_id, assign_spyfall_round_id]

lemma start_new_round_cases (rand : RoundRand) (resolved : ResolvedPrompt)
    (now : ℤ) (mode : String) (s : State) :
    ((start_new_round_locked rand resolved now mode s).1 = true ∧
     (start_new_round_locked rand resolved now mode s).2.round_id =
       s.round_id + 1) ∨
    ((start_new_round_locked rand resolved now mode s).1 = false ∧
     (start_new_round_locked rand resolved now mode s).2.round_id =
       s.round_id) := by
  simp only [start_new_round_locked]
  split
  · right; exact ⟨rfl, rfl⟩
  · split
    · right; exact ⟨rfl, rfl⟩
    · split
      · right; exact ⟨rfl, rfl⟩
      · split
        · right; exact ⟨rfl, rfl⟩
        · left
          exact ⟨rfl, (start_round_mode_init_round_id _ _ _ _ _ _).trans rfl⟩

/-- C8 (amended): `round_id` rises by exactly one on each successful round
start and is untouched by a failed start; ticking, submissions, result
computation and the mafia day/night resolutions preserve it; the
round-starting host actions never decrease it; the lobby-wide `kick_all`
reset is the one operation that lowers it, back to 0. -/
theorem round_id_ledger (rand : RoundRand) (resolved : ResolvedPrompt)
    (oracles : TextOracles) (now : ℤ) (pid : String) (form : Form)
    (k : ℕ) (mode : String) (s : State) :
    ((start_new_round_locked rand resolved now mode s).2.round_id =
      if (start_new_round_locked rand resolved now mode s).1 = true
      then s.round_id + 1 else s.round_id) ∧
    (tick_timer_locked now s).2.round_id = s.round_id ∧
    (submit oracles now pid form s).2.round_id = s.round_id ∧
    (compute_results_locked now s).round_id = s.round_id ∧
    (mafia_start_day k now s).round_id = s.round_id ∧
    (mafia_resolve_day k now s).round_id = s.round_id ∧
    s.round_id ≤ (host_start_round rand resolved now s).round_id ∧
    s.round_id ≤ (host_next_round rand resolved now s).round_id ∧
    (host_kick_all s).round_id = 0 := by
  refine ⟨?_, tick_round_id now s, submit_round_id oracles now pid form s,
    compute_results_round_id now s, mafia_start_day_round_id k now s,
    mafia_resolve_day_round_id k now s, ?_, ?_, rfl⟩
  · rcases start_new_round_cases rand resolved now mode s with ⟨hb, hr⟩ | ⟨hb, hr⟩
    · rw [hr, hb, if_pos rfl]
    · rw [hr, hb]
      simp
  · by_cases h1 : s.phase = "in_round"
    · simp [host_start_round, h1]
    · by_cases h2 : s.players = []
      · simp [host_start_round, h1, h2]
      · simp only [host_start_round]
        rw [if_neg h1, if_neg h2]
        rcases start_new_round_cases rand resolved now s.mode s with
          ⟨hb, hr⟩ | ⟨hb, hr⟩
        · rw [hb, if_pos rfl, round_id_set_hm, hr]
          omega
        · rw [hb]
          simp only [Bool.false_eq_true, if_false]
          rw [hr]
  · by_cases h1 : s.phase = "in_round"
    · simp [host_next_round, h1]
    · by_cases h2 : s.players = []
      · simp [host_next_round, h1, h2]
      · simp only [host_next_round]
        rw [if_neg h1, if_neg h2]
        rcases start_new_round_cases rand resolved now s.mode s with
          ⟨hb, hr⟩ | ⟨hb, hr⟩
        · rw [hb, if_pos rfl, round_id_set_hm, hr]
          omega
        · rw [hb]
          simp only [Bool.false_eq_true, if_false]
          rw [hr]

/-- Counterexample to C8 as stated: the `kick_all` lobby reset drops
`round_id` from 5 back to 0, so the counter is not non-decreasing across
all operations. -/
theorem round_id_ledger_cex :
    (host_kick_all exC8).round_id < exC8.round_id := by decide

/-- Witness for the amended C8 at a concrete session: a tick preserves the
round counter, and the lobby reset zeroes it. -/
theorem round_id_ledger_witness :
    (tick_timer_locked 0 exC8).2.round_id = exC8.round_id ∧
    (host_kick_all exC8).round_id = 0 :=
  ⟨(round_id_ledger ⟨[], 0, id, 0, fun _ => []⟩
      ⟨some "Q", [], none, none, none⟩
      ⟨fun _ _ => false, fun _ => (some true, none)⟩ 0 "p1"
      ⟨none, none, none, none, none, none, "", none, "", none⟩ 0 "mlt"
      exC8).2.1,
   (round_id_ledger ⟨[], 0, id, 0, fun _ => []⟩
      ⟨some "Q", [], none, none, none⟩
      ⟨fun _ _ => false, fun _ => (some true, none)⟩ 0 "p1"
      ⟨none, none, none, none, none, none, "", none, "", none⟩ 0 "mlt"
      exC8).2.2.2.2.2.2.2.2⟩

end RoundIdLedger

section MafiaProgress

lemma reset_timer_mafia_alive (now : ℤ) (sec : Option ℤ) (s : State) :
    (reset_timer_locked now sec s).mafia_alive = s.mafia_alive := by
  unfold reset_timer_locked
  repeat' split
  all_goals rfl

lemma compute_results_mafia_alive (now : ℤ) (s : State) :
    (compute_results_locked now s).mafia_alive = s.mafia_alive := by
  obtain ⟨sc, tb, lr, hi, heq⟩ := compute_results_skeleton now s
  rw [heq]

lemma build_tally_keys (subs : List (String × SubVal)) (valid : List String) :
    (build_tally subs valid).map (·.1) = dedupKeys valid := by
  simp only [build_tally, List.map_map]
  induction dedupKeys valid with
  | nil => rfl
  | cons a t ih => simpa using ih

lemma pick_winners_keys (tally : List (String × ℕ)) (v : String)
    (hv : v ∈ (pick_winners_from_tally tally).1) : v ∈ tally.map (·.1) := by
  simp only [pick_winners_from_tally] at hv
  split at hv
  · simp at hv
  · simp only [List.mem_map] at hv ⊢
    obtain ⟨kv, hkv, heq⟩ := hv
    exact ⟨kv, List.mem_of_mem_filter hkv, heq⟩

lemma resolve_mafia_vote_mem (k : ℕ) (votes : List (String × String))
    (alive : List String) (v : String)
    (h : resolve_mafia_vote k votes alive = some v) : v ∈ alive := by
  simp only [resolve_mafia_vote] at h
  split at h
  · cases h
  · have hv := List.get?_mem h
    have h2 := pick_winners_keys _ v hv
    rw [build_tally_keys] at h2
    exact (mem_dedupKeys _ _).mp h2

lemma mafia_start_day_alive_cases (k : ℕ) (now : ℤ) (s : State) :
    (mafia_start_day k now s).mafia_alive = s.mafia_alive ∨
    ∃ v, (mafia_start_day k now s).mafia_alive =
      s.mafia_alive.filter (fun x => x ≠ v) := by
  simp only [mafia_start_day]
  by_cases h1 : s.mode ≠ "mafia"
  · rw [if_pos h1]; left; rfl
  · rw [if_neg h1]
    by_cases h2 : s.phase ≠ "in_round"
    · rw [if_pos h2]; left; rfl
    · rw [if_neg h2]
      by_cases h3 : s.mafia_phase ≠ some "night"
      · rw [if_pos h3]; left; rfl
      · rw [if_neg h3]
        rcases hv : resolve_mafia_vote k s.mafia_wolf_votes s.mafia_alive with
          _ | v
        · simp only [hv]
          split
          · left; simp [compute_results_mafia_alive]
          · left; simp [reset_timer_mafia_alive]
        · by_cases hne : v ≠ ""
          · simp only [hv]
            rw [if_pos hne]
            split
            · right; exact ⟨v, by simp [compute_results_mafia_alive]⟩
            · right; exact ⟨v, by simp [reset_timer_mafia_alive]⟩
          · simp only [hv]
            rw [if_neg hne]
            split
            · left; simp [compute_results_mafia_alive]
            · left; simp [reset_timer_mafia_alive]

lemma mafia_resolve_day_alive_cases (k : ℕ) (now : ℤ) (s : State) :
    (mafia_resolve_day k now s).mafia_alive = s.mafia_alive ∨
    ∃ v, (mafia_resolve_day k now s).mafia_alive =
      s.mafia_alive.filter (fun x => x ≠ v) := by
  simp only [mafia_resolve_day]
  by_cases h1 : s.mode ≠ "mafia"
  · rw [if_pos h1]; left; rfl
  · rw [if_neg h1]
    by_cases h2 : s.phase ≠ "in_round"
    · rw [if_pos h2]; left; rfl
    · rw [if_neg h2]
      by_cases h3 : s.mafia_phase ≠ some "day"
      · rw [if_pos h3]; left; rfl
      · rw [if_neg h3]
        rcases hv : resolve_mafia_vote k s.mafia_day_votes s.mafia_alive with
          _ | v
        · simp only [hv]
          split
          · left; simp [compute_results_mafia_alive]
          · left; simp [reset_timer_mafia_alive]
        · by_cases hne : v ≠ ""
          · simp only [hv]
            rw [if_pos hne]
            split
            · right; exact ⟨v, by simp [compute_results_mafia_alive]⟩
            · right; exact ⟨v, by simp [reset_timer_mafia_alive]⟩
          · simp only [hv]
            rw [if_neg hne]
            split
            · left; simp [compute_results_mafia_alive]
            · left; simp [reset_timer_mafia_alive]

lemma mafia_start_day_elim (k : ℕ) (now : ℤ) (s : State)
    (h1 : s.mode = "mafia") (h2 : s.phase = "in_round")
    (h3 : s.mafia_phase = some "night") (v : String)
    (hv : resolve_mafia_vote k s.mafia_wolf_votes s.mafia_alive = some v)
    (hne : v ≠ "") :
    (mafia_start_day k now s).mafia_alive =
      s.mafia_alive.filter (fun x => x ≠ v) := by
  simp only [mafia_start_day]
  rw [if_neg (by simp [h1]), if_neg (by simp [h2]), if_neg (by simp [h3])]
  simp only [hv]
  rw [if_pos hne]
  split
  · simp [compute_results_mafia_alive]
  · simp [reset_timer_mafia_alive]

lemma mafia_resolve_day_elim (k : ℕ) (now : ℤ) (s : State)
    (h1 : s.mode = "mafia") (h2 : s.phase = "in_round")
    (h3 : s.mafia_phase = some "day") (v : String)
    (hv : resolve_mafia_vote k s.mafia_day_votes s.mafia_alive = some v)
    (hne : v ≠ "") :
    (mafia_resolve_day k now s).mafia_alive =
      s.mafia_alive.filter (fun x => x ≠ v) := by
  simp only [mafia_resolve_day]
  rw [if_neg (by simp [h1]), if_neg (by simp [h2]), if_neg (by simp [h3])]
  simp only [hv]
  rw [if_pos hne]
  split
  · simp [compute_results_mafia_alive]
  · simp [reset_timer_mafia_alive]

lemma mafia_start_day_over (k : ℕ) (now : ℤ) (s : State)
    (hov : s.mafia_phase = some "over") :
    mafia_start_day k now s =
      { s with host_message := (mafia_start_day k now s).host_message } := by
  simp only [mafia_start_day]
  by_cases h1 : s.mode ≠ "mafia"
  · rw [if_pos h1]
  · rw [if_neg h1]
    by_cases h2 : s.phase ≠ "in_round"
    · rw [if_pos h2]
    · rw [if_neg h2]
      rw [if_pos (by simp [hov])]

lemma mafia_resolve_day_over (k : ℕ) (now : ℤ) (s : State)
    (hov : s.mafia_phase = some "over") :
    mafia_resolve_day k now s =
      { s with host_message := (mafia_resolve_day k now s).host_message } := by
  simp only [mafia_resolve_day]
  by_cases h1 : s.mode ≠ "mafia"
  · rw [if_pos h1]
  · rw [if_neg h1]
    by_cases h2 : s.phase ≠ "in_round"
    · rw [if_pos h2]
    · rw [if_neg h2]
      rw [if_pos (by simp [hov])]

/-- C9 (amended): every night/day resolution keeps the alive list a
sublist of the pre-resolution one; it is strictly smaller exactly when the
vote resolves to a (nonempty) victim, who is an alive player and is removed;
and the terminal "over" sub-phase is never left — with the game over, both
resolution actions change nothing but the host message. -/
theorem mafia_resolution_progress (k : ℕ) (now : ℤ) (s : State) :
    (mafia_start_day k now s).mafia_alive.Sublist s.mafia_alive ∧
    (mafia_resolve_day k now s).mafia_alive.Sublist s.mafia_alive ∧
    (s.mode = "mafia" → s.phase = "in_round" →
      s.mafia_phase = some "night" →
      ∀ v, resolve_mafia_vote k s.mafia_wolf_votes s.mafia_alive = some v →
        v ≠ "" →
        v ∈ s.mafia_alive ∧ v ∉ (mafia_start_day k now s).mafia_alive) ∧
    (s.mode = "mafia" → s.phase = "in_round" →
      s.mafia_phase = some "day" →
      ∀ v, resolve_mafia_vote k s.mafia_day_votes s.mafia_alive = some v →
        v ≠ "" →
        v ∈ s.mafia_alive ∧ v ∉ (mafia_resolve_day k now s).mafia_alive) ∧
    (s.mafia_phase = some "over" →
      mafia_start_day k now s =
        { s with host_message := (mafia_start_day k now s).host_message } ∧
      mafia_resolve_day k now s =
        { s with host_message := (mafia_resolve_day k now s).host_message }) := by
  refine ⟨?_, ?_, ?_, ?_, fun hov =>
    ⟨mafia_start_day_over k now s hov, mafia_resolve_day_over k now s hov⟩⟩
  · rcases mafia_start_day_alive_cases k now s with h | ⟨v, h⟩
    · rw [h]
    · rw [h]; exact List.filter_sublist _
  · rcases mafia_resolve_day_alive_cases k now s with h | ⟨v, h⟩
    · rw [h]
    · rw [h]; exact List.filter_sublist _
  · intro h1 h2 h3 v hv hne
    refine ⟨resolve_mafia_vote_mem k _ _ v hv, ?_⟩
    rw [mafia_start_day_elim k now s h1 h2 h3 v hv hne]
    simp
  · intro h1 h2 h3 v hv hne
    refine ⟨resolve_mafia_vote_mem k _ _ v hv, ?_⟩
    rw [mafia_resolve_day_elim k now s h1 h2 h3 v hv hne]
    simp

/-- Counterexample to C9 as stated: resolving a night with no votes leaves
the alive list identical to the pre-resolution one (the day still starts),
so the post-resolution alive set is not a strict subset. -/
theorem mafia_resolution_progress_cex :
    (mafia_start_day 0 0 exC9).mafia_alive = exC9.mafia_alive ∧
    exC9.mafia_phase = some "night" ∧
    (mafia_start_day 0 0 exC9).mafia_phase = some "day" := by
  refine ⟨?_, ?_, ?_⟩ <;> decide

/-- Witness for the amended C9: with two wolf votes on b, the night
resolution eliminates b, an alive player, from the alive list. -/
theorem mafia_resolution_progress_witness :
    "b" ∈ exC9b.mafia_alive ∧
    "b" ∉ (mafia_start_day 0 0 exC9b).mafia_alive :=
  (mafia_resolution_progress 0 0 exC9b).2.2.1 (by decide) (by decide)
    (by decide) "b" (by decide) (by decide)

end MafiaProgress

end PartyHub
